import Mathlib

/-!
Verification development for the gox platform-lookup module (platform.go):
a static registry of per-release platform snapshots (`Platforms_1_0` …
`Platforms_1_12`), uname-style OS/arch name tables, and the resolver
`SupportedPlatforms` mapping a toolchain version string to the applicable
snapshot.

The snapshot lists are embedded as the literal sequences denoted by the
source's `var` block (each later snapshot is the earlier one followed by the
appended entries).  The runtime behaviour of Go's `append` during package
initialization — including backing-array reuse and the resulting aliasing —
is modelled separately below (`goAppend`, `goInit`).
-/

/-- A combination of OS/arch that can be built against (struct `Platform`). -/
structure Platform where
  OS : String
  Arch : String
  Default : Bool
deriving DecidableEq, Repr

/-- `func (p *Platform) String()`: `fmt.Sprintf("%s/%s", p.OS, p.Arch)`. -/
def Platform.String (p : Platform) : String := p.OS ++ "/" ++ p.Arch

/-- The fixed lookup table of `OSUname` (keys in source order); Go map
lookup returns the zero value `""` for absent keys. -/
def osUnameTable : List (String × String) :=
  [("darwin", "Darwin"),
   ("dragonfly", "DragonFly"),
   ("freebsd", "FreeBSD"),
   ("linux", "Linux"),
   ("netbsd", "NetBSD"),
   ("openbsd", "OpenBSD"),
   ("plan9", "Plan9"),
   ("solaris", "SunOS"),
   ("windows", "Windows")]

/-- `func (p *Platform) OSUname()`: like `uname -s`. -/
def Platform.OSUname (p : Platform) :=
  (osUnameTable.lookup p.OS).getD ""

/-- The fixed lookup table of `ArchUname` (keys in source order). -/
def archUnameTable : List (String × String) :=
  [("386", "i386"),
   ("amd64", "x86_64"),
   ("arm", "arm"),
   ("arm64", "aarch64"),
   ("ppc64", "ppc64"),
   ("ppc64le", "ppc64le")]

/-- `func (p *Platform) ArchUname()`: like `uname -m`. -/
def Platform.ArchUname (p : Platform) :=
  (archUnameTable.lookup p.Arch).getD ""

/-- `Platforms_1_0` literal (11 entries, all `Default: true`). -/
def Platforms_1_0 : List Platform :=
  [⟨"darwin", "386", true⟩,
   ⟨"darwin", "amd64", true⟩,
   ⟨"linux", "386", true⟩,
   ⟨"linux", "amd64", true⟩,
   ⟨"linux", "arm", true⟩,
   ⟨"freebsd", "386", true⟩,
   ⟨"freebsd", "amd64", true⟩,
   ⟨"openbsd", "386", true⟩,
   ⟨"openbsd", "amd64", true⟩,
   ⟨"windows", "386", true⟩,
   ⟨"windows", "amd64", true⟩]

/-- Entries appended to `Platforms_1_0` to form `Platforms_1_1`. -/
def delta_1_1 : List Platform :=
  [⟨"freebsd", "arm", true⟩,
   ⟨"netbsd", "386", true⟩,
   ⟨"netbsd", "amd64", true⟩,
   ⟨"netbsd", "arm", true⟩,
   ⟨"plan9", "386", false⟩]

/-- `Platforms_1_1 = append(Platforms_1_0, …)` as the list it denotes. -/
def Platforms_1_1 : List Platform := Platforms_1_0 ++ delta_1_1

/-- Entries appended to `Platforms_1_1` to form `Platforms_1_3`. -/
def delta_1_3 : List Platform :=
  [⟨"dragonfly", "386", false⟩,
   ⟨"dragonfly", "amd64", false⟩,
   ⟨"nacl", "amd64", false⟩,
   ⟨"nacl", "amd64p32", false⟩,
   ⟨"nacl", "arm", false⟩,
   ⟨"solaris", "amd64", false⟩]

/-- `Platforms_1_3 = append(Platforms_1_1, …)` as the list it denotes. -/
def Platforms_1_3 : List Platform := Platforms_1_1 ++ delta_1_3

/-- Entries appended to `Platforms_1_3` to form `Platforms_1_4`. -/
def delta_1_4 : List Platform :=
  [⟨"android", "arm", false⟩,
   ⟨"plan9", "amd64", false⟩]

/-- `Platforms_1_4 = append(Platforms_1_3, …)` as the list it denotes. -/
def Platforms_1_4 : List Platform := Platforms_1_3 ++ delta_1_4

/-- Entries appended to `Platforms_1_4` to form `Platforms_1_5`. -/
def delta_1_5 : List Platform :=
  [⟨"darwin", "arm", false⟩,
   ⟨"darwin", "arm64", false⟩,
   ⟨"linux", "arm64", false⟩,
   ⟨"linux", "ppc64", false⟩,
   ⟨"linux", "ppc64le", false⟩]

/-- `Platforms_1_5 = append(Platforms_1_4, …)` as the list it denotes. -/
def Platforms_1_5 : List Platform := Platforms_1_4 ++ delta_1_5

/-- Entries appended to `Platforms_1_5` to form `Platforms_1_6`. -/
def delta_1_6 : List Platform :=
  [⟨"android", "386", false⟩,
   ⟨"linux", "mips64", false⟩,
   ⟨"linux", "mips64le", false⟩]

/-- `Platforms_1_6 = append(Platforms_1_5, …)` as the list it denotes. -/
def Platforms_1_6 : List Platform := Platforms_1_5 ++ delta_1_6

/-- Entries appended to `Platforms_1_5` (not `Platforms_1_6`) to form
`Platforms_1_7`; mips64 and mips64le are re-added with `Default: true`. -/
def delta_1_7 : List Platform :=
  [⟨"linux", "s390x", true⟩,
   ⟨"plan9", "arm", false⟩,
   ⟨"android", "386", false⟩,
   ⟨"linux", "mips64", true⟩,
   ⟨"linux", "mips64le", true⟩]

/-- `Platforms_1_7 = append(Platforms_1_5, …)` as the list it denotes. -/
def Platforms_1_7 : List Platform := Platforms_1_5 ++ delta_1_7

/-- Entries appended to `Platforms_1_7` to form `Platforms_1_8`. -/
def delta_1_8 : List Platform :=
  [⟨"linux", "mips", true⟩,
   ⟨"linux", "mipsle", true⟩,
   ⟨"linux", "arm64", true⟩]

/-- `Platforms_1_8 = append(Platforms_1_7, …)` as the list it denotes. -/
def Platforms_1_8 : List Platform := Platforms_1_7 ++ delta_1_8

/-- Entries appended to `Platforms_1_8` to form `Platforms_1_9`. -/
def delta_1_9 : List Platform :=
  [⟨"linux", "riscv64", true⟩,
   ⟨"freebsd", "riscv64", true⟩,
   ⟨"freebsd", "arm64", true⟩,
   ⟨"freebsd", "arm", true⟩,
   ⟨"openbsd", "arm64", true⟩,
   ⟨"openbsd", "arm", true⟩,
   ⟨"openbsd", "riscv64", true⟩,
   ⟨"windows", "arm", true⟩,
   ⟨"windows", "arm64", true⟩,
   ⟨"js", "wasm", true⟩]

/-- `Platforms_1_9 = append(Platforms_1_8, …)` as the list it denotes. -/
def Platforms_1_9 : List Platform := Platforms_1_8 ++ delta_1_9

/-- `Platforms_1_10 = Platforms_1_9` (no new platforms in 1.10). -/
def Platforms_1_10 : List Platform := Platforms_1_9

/-- Entries appended to `Platforms_1_10` to form `Platforms_1_11`. -/
def delta_1_11 : List Platform :=
  [⟨"js", "wasm", true⟩,
   ⟨"linux", "arm64", true⟩]

/-- `Platforms_1_11 = append(Platforms_1_10, …)` as the list it denotes. -/
def Platforms_1_11 : List Platform := Platforms_1_10 ++ delta_1_11

/-- Entries appended to `Platforms_1_11` to form `Platforms_1_12`. -/
def delta_1_12 : List Platform :=
  [⟨"linux", "ppc64", true⟩,
   ⟨"windows", "arm", true⟩,
   ⟨"aix", "ppc64", true⟩]

/-- `Platforms_1_12 = append(Platforms_1_11, …)` as the list it denotes. -/
def Platforms_1_12 : List Platform := Platforms_1_11 ++ delta_1_12

/-- `PlatformsLatest = Platforms_1_12`. -/
def PlatformsLatest : List Platform := Platforms_1_12

/-!
## Version parsing and comparison

`SupportedPlatforms` parses the version with hashicorp/go-version
(`version.NewVersion`) and checks it against constraint strings such as
`">= 1.1, < 1.3"` (`version.NewConstraint` / `Constraints.Check`).  We embed
the numeric core of that library, which is all the resolver's inputs and
table exercise: a version is its list of dotted numeric segments (go-version
additionally accepts an optional leading `v` and pads to at least three
segments), and comparison pads the shorter segment list with zeros.
Pre-release/metadata suffixes of go-version are outside this model.
-/

/-- Numeric value of a nonempty digit string (ASCII code of a digit minus
48, accumulated base 10), as go-version's segment conversion yields. -/
def digitsToNat (p : List Char) : Nat :=
  p.foldl (fun n c => n * 10 + (c.toNat - 48)) 0

/-- Numeric core of `version.NewVersion` over the characters after the
`go` prefix: optional leading `v`, then dot-separated nonempty runs of
digits; segments are padded with zeros to at least three, as go-version
does.  Any other shape fails to parse. -/
def parseVersion (s : String) : Option (List Nat) :=
  let cs := match s.toList with
    | 'v' :: rest => rest
    | cs => cs
  let parts := cs.splitOn '.'
  if parts.all (fun p => !p.isEmpty && p.all (fun c => c.isDigit)) then
    let segs := parts.map digitsToNat
    some (segs ++ List.replicate (3 - segs.length) 0)
  else
    none

/-- Comparison of leftover segments against pure zero padding: `gt` as soon
as a nonzero segment remains, `eq` when all leftovers are zero. -/
def segCmpNil : List Nat → Ordering
  | [] => .eq
  | a :: as => if 0 < a then .gt else segCmpNil as

/-- go-version `Version.Compare`: compare segment lists pairwise, padding
the shorter list with zeros. -/
def segCmp : List Nat → List Nat → Ordering
  | [], bs => (segCmpNil bs).swap
  | a :: as, [] => segCmpNil (a :: as)
  | a :: as, b :: bs =>
      if a < b then .lt else if b < a then .gt else segCmp as bs

/-- Comparison operators occurring in the resolver's constraint strings. -/
inductive COp
  | le
  | ge
  | lt
deriving DecidableEq

/-- One constraint such as `>= 1.1`: an operator and a bound version. -/
structure Constraint where
  op : COp
  ver : List Nat

/-- go-version constraint check: `<=` holds unless the comparison is `gt`,
`>=` holds unless it is `lt`, `<` holds exactly when it is `lt`. -/
def Constraint.check (c : Constraint) (v : List Nat) : Bool :=
  match c.op, segCmp v c.ver with
  | .le, .gt => false
  | .le, _ => true
  | .ge, .lt => false
  | .ge, _ => true
  | .lt, .lt => true
  | .lt, _ => false

/-- A comma-separated constraint string holds when all its constraints do
(go-version `Constraints.Check`). -/
def checkAll (cs : List Constraint) (v : List Nat) : Bool :=
  cs.all (fun c => c.check v)

/-- The resolver's ordered range table, each row the parsed form of its
constraint string (all the table's constraint strings are well formed, so
the per-iteration `NewConstraint` call never takes its panic branch):
`"<= 1.0"`, `">= 1.1, < 1.3"`, …, `">=1.12, < 1.13"`. -/
def rangeTable : List (List Constraint × List Platform) :=
  [([⟨.le, [1, 0]⟩], Platforms_1_0),
   ([⟨.ge, [1, 1]⟩, ⟨.lt, [1, 3]⟩], Platforms_1_1),
   ([⟨.ge, [1, 3]⟩, ⟨.lt, [1, 4]⟩], Platforms_1_3),
   ([⟨.ge, [1, 4]⟩, ⟨.lt, [1, 5]⟩], Platforms_1_4),
   ([⟨.ge, [1, 5]⟩, ⟨.lt, [1, 6]⟩], Platforms_1_5),
   ([⟨.ge, [1, 6]⟩, ⟨.lt, [1, 7]⟩], Platforms_1_6),
   ([⟨.ge, [1, 7]⟩, ⟨.lt, [1, 8]⟩], Platforms_1_7),
   ([⟨.ge, [1, 8]⟩, ⟨.lt, [1, 9]⟩], Platforms_1_8),
   ([⟨.ge, [1, 9]⟩, ⟨.lt, [1, 10]⟩], Platforms_1_9),
   ([⟨.ge, [1, 10]⟩, ⟨.lt, [1, 11]⟩], Platforms_1_10),
   ([⟨.ge, [1, 11]⟩, ⟨.lt, [1, 12]⟩], Platforms_1_11),
   ([⟨.ge, [1, 12]⟩, ⟨.lt, [1, 13]⟩], Platforms_1_12)]

/-- The resolver's loop: return the snapshot of the first row whose
constraints all hold. -/
def findRange : List (List Constraint × List Platform) → List Nat →
    Option (List Platform)
  | [], _ => none
  | e :: rest, v => if checkAll e.1 v then some e.2 else findRange rest v

/-- First matching row of the range table for a parsed version. -/
def matchRange (v : List Nat) : Option (List Platform) :=
  findRange rangeTable v

/-- Steps 3–4 of the resolver on an already-parsed version: the first
matching row's snapshot, else (`// Assume latest`) `Platforms_1_12`. -/
def resolveVersion (v : List Nat) : List Platform :=
  (matchRange v).getD Platforms_1_12

/-- `strings.HasPrefix(v, "go")`, over the string's characters (the prefix
`go` is two ASCII bytes, so byte and character prefixes coincide). -/
def hasGoPre (v : String) : Bool :=
  v.toList.take 2 == ['g', 'o']

/-- `func SupportedPlatforms(v string) []Platform`: latest on a missing
`go` prefix; strip the prefix; latest when parsing fails (the log line is
a side effect with no bearing on the result); otherwise the first matching
row of the range table, falling back to latest. -/
def SupportedPlatforms (v : String) : List Platform :=
  if !(hasGoPre v) then
    PlatformsLatest
  else
    match parseVersion (v.drop 2) with
    | none => PlatformsLatest
    | some current => resolveVersion current

/-!
## Runtime model of the `var` block initialization

Go's `append` writes into the operand's backing array when spare capacity
remains and only otherwise allocates a fresh array.  `Platforms_1_6` and
`Platforms_1_7` both append to `Platforms_1_5`, so whether the second
append overwrites the first's entries is decided by the capacities the
runtime produced.  We model a slice as (array id, length, capacity) over a
store of backing arrays and replay the initialization in declaration
order.
-/

/-- The zero value of `Platform`, filling freshly allocated slots. -/
def zeroPlatform : Platform := ⟨"", "", false⟩

/-- A Go slice header: backing array id, length, capacity.  Every slice in
the `var` block starts at offset 0 of its array, so no offset is needed. -/
structure GoSlice where
  arrId : Nat
  len : Nat
  cap : Nat

/-- The store of backing arrays; each entry's list has length = capacity. -/
abbrev Store := List (List Platform)

/-- Overwrite `arr[start … start+|xs|)` with `xs`. -/
def writeAt (arr : List Platform) (start : Nat) (xs : List Platform) :
    List Platform :=
  arr.take start ++ xs ++ arr.drop (start + xs.length)

/-- Go `growslice` capacity for small slices (length < 256): double the old
capacity, or take the needed length if doubling is not enough.  The runtime
additionally rounds the byte size up to an allocation size class, which can
only enlarge the capacity; for the capacities this initialization reaches
(22, 44, 88 elements) the rounding changes no fits-in-capacity decision, so
it is omitted. -/
def growCap (oldCap need : Nat) : Nat :=
  if 2 * oldCap < need then need else 2 * oldCap

/-- `append(s, xs...)`: write in place when the result fits in the
capacity, otherwise allocate a grown array, copy the first `s.len`
entries, and write there. -/
def goAppend (st : Store) (s : GoSlice) (xs : List Platform) :
    Store × GoSlice :=
  let need := s.len + xs.length
  if need ≤ s.cap then
    (st.set s.arrId (writeAt (st.getD s.arrId []) s.len xs),
     ⟨s.arrId, need, s.cap⟩)
  else
    let nc := growCap s.cap need
    let newArr := (st.getD s.arrId []).take s.len ++ xs ++
      List.replicate (nc - need) zeroPlatform
    (st ++ [newArr], ⟨st.length, need, nc⟩)

/-- The package initialization replayed in declaration order: the
`Platforms_1_0` literal (length = capacity = 11), then each later slice
built by `append` from its declared operand — `Platforms_1_7` from the
`Platforms_1_5` slice.  Returns the final store and the twelve slice
headers in order 1.0, 1.1, 1.3, 1.4, 1.5, 1.6, 1.7, 1.8, 1.9, 1.10, 1.11,
1.12. -/
def goInit : Store × List GoSlice :=
  let st0 : Store := [Platforms_1_0]
  let s0 : GoSlice := ⟨0, 11, 11⟩
  let r1 := goAppend st0 s0 delta_1_1
  let r3 := goAppend r1.1 r1.2 delta_1_3
  let r4 := goAppend r3.1 r3.2 delta_1_4
  let r5 := goAppend r4.1 r4.2 delta_1_5
  let r6 := goAppend r5.1 r5.2 delta_1_6
  let r7 := goAppend r6.1 r5.2 delta_1_7
  let r8 := goAppend r7.1 r7.2 delta_1_8
  let r9 := goAppend r8.1 r8.2 delta_1_9
  let r11 := goAppend r9.1 r9.2 delta_1_11
  let r12 := goAppend r11.1 r11.2 delta_1_12
  (r12.1,
   [s0, r1.2, r3.2, r4.2, r5.2, r6.2, r7.2, r8.2, r9.2, r9.2, r11.2,
    r12.2])

/-- The list a slice denotes after initialization: the first `len` entries
of its backing array in the final store. -/
def readSlice (i : Nat) : List Platform :=
  let s := (goInit.2).getD i ⟨0, 0, 0⟩
  ((goInit.1).getD s.arrId []).take s.len

/-- First segment of a version, zero when absent. -/
def seg0 (v : List Nat) : Nat := v.headD 0

/-- Second segment of a version, zero when absent. -/
def seg1 (v : List Nat) : Nat := v.tail.headD 0

/-- Segments of a version beyond the second. -/
def segRest (v : List Nat) : List Nat := v.tail.tail

/-- The documented 1.6→1.7 correction: the entries whose default flag was
fixed between those snapshots (linux/mips64 and linux/mips64le). -/
def mipsFix (p : Platform) : Prop :=
  p.OS = "linux" ∧ (p.Arch = "mips64" ∨ p.Arch = "mips64le")

instance (p : Platform) : Decidable (mipsFix p) := by
  unfold mipsFix
  infer_instance

/-- The snapshots in range-table order. -/
def snapAt : Nat → List Platform
  | 0 => Platforms_1_0
  | 1 => Platforms_1_1
  | 2 => Platforms_1_3
  | 3 => Platforms_1_4
  | 4 => Platforms_1_5
  | 5 => Platforms_1_6
  | 6 => Platforms_1_7
  | 7 => Platforms_1_8
  | 8 => Platforms_1_9
  | 9 => Platforms_1_10
  | 10 => Platforms_1_11
  | _ => Platforms_1_12

/-- Sound per-row bounds on a version's first two padded segments. -/
def inRow (v : List Nat) : Nat → Prop
  | 0 => seg0 v = 0 ∨ (seg0 v = 1 ∧ seg1 v = 0)
  | 1 => seg0 v = 1 ∧ 1 ≤ seg1 v ∧ seg1 v < 3
  | 2 => seg0 v = 1 ∧ 3 ≤ seg1 v ∧ seg1 v < 4
  | 3 => seg0 v = 1 ∧ 4 ≤ seg1 v ∧ seg1 v < 5
  | 4 => seg0 v = 1 ∧ 5 ≤ seg1 v ∧ seg1 v < 6
  | 5 => seg0 v = 1 ∧ 6 ≤ seg1 v ∧ seg1 v < 7
  | 6 => seg0 v = 1 ∧ 7 ≤ seg1 v ∧ seg1 v < 8
  | 7 => seg0 v = 1 ∧ 8 ≤ seg1 v ∧ seg1 v < 9
  | 8 => seg0 v = 1 ∧ 9 ≤ seg1 v ∧ seg1 v < 10
  | 9 => seg0 v = 1 ∧ 10 ≤ seg1 v ∧ seg1 v < 11
  | 10 => seg0 v = 1 ∧ 11 ≤ seg1 v ∧ seg1 v < 12
  | 11 => seg0 v = 1 ∧ 12 ≤ seg1 v ∧ seg1 v < 13
  | _ => False

/-!
## Characterizing the range match

Every bound in the range table has exactly two segments `[1, k]`, so a
version's fate under `matchRange` is determined by its first two segments
(zero-padded) together with whether any later segment is nonzero.  The
lemmas below express `segCmp` against a two-segment bound in those terms
and derive a closed-form description of `matchRange`.
-/

theorem segCmpNil_ne_lt (r : List Nat) : segCmpNil r ≠ .lt := by
  induction r with
  | nil => simp [segCmpNil]
  | cons a as ih => simp only [segCmpNil]; split <;> simp [ih]

theorem segCmpNil_eq_or_gt (r : List Nat) :
    segCmpNil r = .eq ∨ segCmpNil r = .gt := by
  rcases h : segCmpNil r with _ | _ | _
  · exact absurd h (segCmpNil_ne_lt r)
  · exact Or.inl rfl
  · exact Or.inr rfl

theorem segCmp_nil_right (r : List Nat) : segCmp r [] = segCmpNil r := by
  cases r <;> rfl

/-- `segCmp` against a two-segment bound, in terms of the version's first
two (zero-padded) segments and its leftover segments. -/
theorem segCmp_two (v : List Nat) (x y : Nat) :
    segCmp v [x, y] =
      if seg0 v < x then .lt
      else if x < seg0 v then .gt
      else if seg1 v < y then .lt
      else if y < seg1 v then .gt
      else segCmpNil (segRest v) := by
  rcases v with _ | ⟨a, _ | ⟨b, r⟩⟩
  · simp only [segCmp, segCmpNil, seg0, seg1, segRest, List.headD, List.tail]
    by_cases hx : 0 < x <;> by_cases hy : 0 < y <;>
      simp [hx, hy, Ordering.swap]
  · simp only [segCmp, segCmpNil, seg0, seg1, segRest, List.headD, List.tail,
      segCmp_nil_right]
    by_cases h1 : a < x <;> by_cases h2 : x < a <;> by_cases hy : 0 < y <;>
      simp [h1, h2, hy, Ordering.swap]
  · simp only [segCmp, seg0, seg1, segRest, List.headD, List.tail,
      segCmp_nil_right]

theorem segCmp_two_lt (v : List Nat) (x y : Nat) :
    segCmp v [x, y] = .lt ↔
      (seg0 v < x ∨ (seg0 v = x ∧ seg1 v < y)) := by
  rw [segCmp_two]
  rcases segCmpNil_eq_or_gt (segRest v) with h | h <;>
    rw [h] <;> split_ifs <;> simp <;> omega

theorem segCmp_two_ne_lt (v : List Nat) (x y : Nat) :
    segCmp v [x, y] ≠ .lt ↔
      (x < seg0 v ∨ (seg0 v = x ∧ y ≤ seg1 v)) := by
  rw [segCmp_two]
  rcases segCmpNil_eq_or_gt (segRest v) with h | h <;>
    rw [h] <;> split_ifs <;> simp <;> omega

theorem segCmp_two_gt (v : List Nat) (x y : Nat) :
    segCmp v [x, y] = .gt ↔
      (x < seg0 v ∨ (seg0 v = x ∧
        (y < seg1 v ∨ (seg1 v = y ∧ segCmpNil (segRest v) = .gt)))) := by
  rw [segCmp_two]
  rcases segCmpNil_eq_or_gt (segRest v) with h | h <;>
    rw [h] <;> split_ifs <;> simp <;> omega

theorem segCmp_two_ne_gt (v : List Nat) (x y : Nat) :
    segCmp v [x, y] ≠ .gt ↔
      (seg0 v < x ∨ (seg0 v = x ∧
        (seg1 v < y ∨ (seg1 v = y ∧ segCmpNil (segRest v) = .eq)))) := by
  rw [segCmp_two]
  rcases segCmpNil_eq_or_gt (segRest v) with h | h <;>
    rw [h] <;> split_ifs <;> simp_all <;> omega

/-- A version whose first two padded segments dominate another's is `gt`
under `segCmp`. -/
theorem segCmp_gt_of_heads (a b : List Nat)
    (h : seg0 b < seg0 a ∨ (seg0 a = seg0 b ∧ seg1 b < seg1 a)) :
    segCmp a b = .gt := by
  rcases a with _ | ⟨x, as⟩
  · simp only [seg0, seg1, List.headD, List.tail] at h
    omega
  rcases b with _ | ⟨u, bs⟩
  · simp only [seg0, seg1, List.headD, List.tail] at h
    rw [segCmp_nil_right]
    simp only [segCmpNil]
    rcases h with h | ⟨h1, h2⟩
    · rw [if_pos h]
    · rw [if_neg (by omega)]
      rcases as with _ | ⟨y, r⟩
      · simp [List.headD, List.tail] at h2
      · simp only [List.headD, List.tail] at h2
        simp only [segCmpNil]
        rw [if_pos h2]
  · simp only [seg0, seg1, List.headD, List.tail] at h
    simp only [segCmp]
    rcases h with h | ⟨h1, h2⟩
    · rw [if_neg (by omega), if_pos h]
    · rw [if_neg (by omega), if_neg (by omega)]
      rcases as with _ | ⟨y, r⟩ <;> rcases bs with _ | ⟨w, s⟩ <;>
        simp only [List.headD, List.tail] at h2
      · omega
      · omega
      · rw [segCmp_nil_right]
        simp only [segCmpNil]
        rw [if_pos h2]
      · simp only [segCmp]
        rw [if_neg (by omega), if_pos h2]

theorem checkAll_le (v c : List Nat) :
    checkAll [⟨.le, c⟩] v = true ↔ segCmp v c ≠ .gt := by
  rcases h : segCmp v c with _ | _ | _ <;>
    simp [checkAll, Constraint.check, h]

theorem checkAll_ge_lt (v c d : List Nat) :
    checkAll [⟨.ge, c⟩, ⟨.lt, d⟩] v = true ↔
      (segCmp v c ≠ .lt ∧ segCmp v d = .lt) := by
  rcases h1 : segCmp v c with _ | _ | _ <;>
    rcases h2 : segCmp v d with _ | _ | _ <;>
      simp [checkAll, Constraint.check, h1, h2]

/-- All twelve rows of the range table, unfolded into arithmetic conditions
on the version's first two padded segments. -/
theorem matchRange_unfold (v : List Nat) :
    matchRange v =
      (if seg0 v < 1 ∨ seg0 v = 1 ∧ (seg1 v < 0 ∨ seg1 v = 0 ∧ segCmpNil (segRest v) = Ordering.eq) then
        some Platforms_1_0
      else if (1 < seg0 v ∨ seg0 v = 1 ∧ 1 ≤ seg1 v) ∧ (seg0 v < 1 ∨ seg0 v = 1 ∧ seg1 v < 3) then
        some Platforms_1_1
      else if (1 < seg0 v ∨ seg0 v = 1 ∧ 3 ≤ seg1 v) ∧ (seg0 v < 1 ∨ seg0 v = 1 ∧ seg1 v < 4) then
        some Platforms_1_3
      else if (1 < seg0 v ∨ seg0 v = 1 ∧ 4 ≤ seg1 v) ∧ (seg0 v < 1 ∨ seg0 v = 1 ∧ seg1 v < 5) then
        some Platforms_1_4
      else if (1 < seg0 v ∨ seg0 v = 1 ∧ 5 ≤ seg1 v) ∧ (seg0 v < 1 ∨ seg0 v = 1 ∧ seg1 v < 6) then
        some Platforms_1_5
      else if (1 < seg0 v ∨ seg0 v = 1 ∧ 6 ≤ seg1 v) ∧ (seg0 v < 1 ∨ seg0 v = 1 ∧ seg1 v < 7) then
        some Platforms_1_6
      else if (1 < seg0 v ∨ seg0 v = 1 ∧ 7 ≤ seg1 v) ∧ (seg0 v < 1 ∨ seg0 v = 1 ∧ seg1 v < 8) then
        some Platforms_1_7
      else if (1 < seg0 v ∨ seg0 v = 1 ∧ 8 ≤ seg1 v) ∧ (seg0 v < 1 ∨ seg0 v = 1 ∧ seg1 v < 9) then
        some Platforms_1_8
      else if (1 < seg0 v ∨ seg0 v = 1 ∧ 9 ≤ seg1 v) ∧ (seg0 v < 1 ∨ seg0 v = 1 ∧ seg1 v < 10) then
        some Platforms_1_9
      else if (1 < seg0 v ∨ seg0 v = 1 ∧ 10 ≤ seg1 v) ∧ (seg0 v < 1 ∨ seg0 v = 1 ∧ seg1 v < 11) then
        some Platforms_1_10
      else if (1 < seg0 v ∨ seg0 v = 1 ∧ 11 ≤ seg1 v) ∧ (seg0 v < 1 ∨ seg0 v = 1 ∧ seg1 v < 12) then
        some Platforms_1_11
      else if (1 < seg0 v ∨ seg0 v = 1 ∧ 12 ≤ seg1 v) ∧ (seg0 v < 1 ∨ seg0 v = 1 ∧ seg1 v < 13) then
        some Platforms_1_12
      else none) := by
  simp only [matchRange, rangeTable, findRange]
  simp only [checkAll_le, checkAll_ge_lt, segCmp_two_ne_gt, segCmp_two_ne_lt,
    segCmp_two_lt]

/-- Closed form of the range match when every segment beyond the second is
zero (so the version equals its two-segment truncation). -/
theorem matchRange_char_eq (v : List Nat)
    (ht : segCmpNil (segRest v) = Ordering.eq) :
    matchRange v =
     (if seg0 v = 0 then some Platforms_1_0
      else if 2 ≤ seg0 v then none
      else if seg1 v = 0 then some Platforms_1_0
      else if seg1 v < 3 then some Platforms_1_1
      else if seg1 v < 4 then some Platforms_1_3
      else if seg1 v < 5 then some Platforms_1_4
      else if seg1 v < 6 then some Platforms_1_5
      else if seg1 v < 7 then some Platforms_1_6
      else if seg1 v < 8 then some Platforms_1_7
      else if seg1 v < 9 then some Platforms_1_8
      else if seg1 v < 10 then some Platforms_1_9
      else if seg1 v < 11 then some Platforms_1_10
      else if seg1 v < 12 then some Platforms_1_11
      else if seg1 v < 13 then some Platforms_1_12
      else none) := by
  rw [matchRange_unfold, ht]
  simp only [eq_self_iff_true, and_true]
  by_cases h0 : seg0 v = 0
  · rw [if_pos (show seg0 v < 1 ∨ seg0 v = 1 ∧ (seg1 v < 0 ∨ seg1 v = 0) from by omega), if_pos h0]
  by_cases h2 : 2 ≤ seg0 v
  · rw [if_neg (show ¬(seg0 v < 1 ∨ seg0 v = 1 ∧ (seg1 v < 0 ∨ seg1 v = 0)) from by omega),
        if_neg (show ¬((1 < seg0 v ∨ seg0 v = 1 ∧ 1 ≤ seg1 v) ∧ (seg0 v < 1 ∨ seg0 v = 1 ∧ seg1 v < 3)) from by omega),
        if_neg (show ¬((1 < seg0 v ∨ seg0 v = 1 ∧ 3 ≤ seg1 v) ∧ (seg0 v < 1 ∨ seg0 v = 1 ∧ seg1 v < 4)) from by omega),
        if_neg (show ¬((1 < seg0 v ∨ seg0 v = 1 ∧ 4 ≤ seg1 v) ∧ (seg0 v < 1 ∨ seg0 v = 1 ∧ seg1 v < 5)) from by omega),
        if_neg (show ¬((1 < seg0 v ∨ seg0 v = 1 ∧ 5 ≤ seg1 v) ∧ (seg0 v < 1 ∨ seg0 v = 1 ∧ seg1 v < 6)) from by omega),
        if_neg (show ¬((1 < seg0 v ∨ seg0 v = 1 ∧ 6 ≤ seg1 v) ∧ (seg0 v < 1 ∨ seg0 v = 1 ∧ seg1 v < 7)) from by omega),
        if_neg (show ¬((1 < seg0 v ∨ seg0 v = 1 ∧ 7 ≤ seg1 v) ∧ (seg0 v < 1 ∨ seg0 v = 1 ∧ seg1 v < 8)) from by omega),
        if_neg (show ¬((1 < seg0 v ∨ seg0 v = 1 ∧ 8 ≤ seg1 v) ∧ (seg0 v < 1 ∨ seg0 v = 1 ∧ seg1 v < 9)) from by omega),
        if_neg (show ¬((1 < seg0 v ∨ seg0 v = 1 ∧ 9 ≤ seg1 v) ∧ (seg0 v < 1 ∨ seg0 v = 1 ∧ seg1 v < 10)) from by omega),
        if_neg (show ¬((1 < seg0 v ∨ seg0 v = 1 ∧ 10 ≤ seg1 v) ∧ (seg0 v < 1 ∨ seg0 v = 1 ∧ seg1 v < 11)) from by omega),
        if_neg (show ¬((1 < seg0 v ∨ seg0 v = 1 ∧ 11 ≤ seg1 v) ∧ (seg0 v < 1 ∨ seg0 v = 1 ∧ seg1 v < 12)) from by omega),
        if_neg (show ¬((1 < seg0 v ∨ seg0 v = 1 ∧ 12 ≤ seg1 v) ∧ (seg0 v < 1 ∨ seg0 v = 1 ∧ seg1 v < 13)) from by omega),
        if_neg h0,
        if_pos h2]
  by_cases hs : seg1 v = 0
  · rw [if_pos (show seg0 v < 1 ∨ seg0 v = 1 ∧ (seg1 v < 0 ∨ seg1 v = 0) from by omega), if_neg h0, if_neg h2, if_pos hs]
  by_cases hb3 : seg1 v < 3
  · rw [if_neg (show ¬(seg0 v < 1 ∨ seg0 v = 1 ∧ (seg1 v < 0 ∨ seg1 v = 0)) from by omega),
        if_pos (show (1 < seg0 v ∨ seg0 v = 1 ∧ 1 ≤ seg1 v) ∧ (seg0 v < 1 ∨ seg0 v = 1 ∧ seg1 v < 3) from by omega),
        if_neg h0,
        if_neg h2,
        if_neg hs,
        if_pos hb3]
  by_cases hb4 : seg1 v < 4
  · rw [if_neg (show ¬(seg0 v < 1 ∨ seg0 v = 1 ∧ (seg1 v < 0 ∨ seg1 v = 0)) from by omega),
        if_neg (show ¬((1 < seg0 v ∨ seg0 v = 1 ∧ 1 ≤ seg1 v) ∧ (seg0 v < 1 ∨ seg0 v = 1 ∧ seg1 v < 3)) from by omega),
        if_pos (show (1 < seg0 v ∨ seg0 v = 1 ∧ 3 ≤ seg1 v) ∧ (seg0 v < 1 ∨ seg0 v = 1 ∧ seg1 v < 4) from by omega),
        if_neg h0,
        if_neg h2,
        if_neg hs,
        if_neg hb3,
        if_pos hb4]
  by_cases hb5 : seg1 v < 5
  · rw [if_neg (show ¬(seg0 v < 1 ∨ seg0 v = 1 ∧ (seg1 v < 0 ∨ seg1 v = 0)) from by omega),
        if_neg (show ¬((1 < seg0 v ∨ seg0 v = 1 ∧ 1 ≤ seg1 v) ∧ (seg0 v < 1 ∨ seg0 v = 1 ∧ seg1 v < 3)) from by omega),
        if_neg (show ¬((1 < seg0 v ∨ seg0 v = 1 ∧ 3 ≤ seg1 v) ∧ (seg0 v < 1 ∨ seg0 v = 1 ∧ seg1 v < 4)) from by omega),
        if_pos (show (1 < seg0 v ∨ seg0 v = 1 ∧ 4 ≤ seg1 v) ∧ (seg0 v < 1 ∨ seg0 v = 1 ∧ seg1 v < 5) from by omega),
        if_neg h0,
        if_neg h2,
        if_neg hs,
        if_neg hb3,
        if_neg hb4,
        if_pos hb5]
  by_cases hb6 : seg1 v < 6
  · rw [if_neg (show ¬(seg0 v < 1 ∨ seg0 v = 1 ∧ (seg1 v < 0 ∨ seg1 v = 0)) from by omega),
        if_neg (show ¬((1 < seg0 v ∨ seg0 v = 1 ∧ 1 ≤ seg1 v) ∧ (seg0 v < 1 ∨ seg0 v = 1 ∧ seg1 v < 3)) from by omega),
        if_neg (show ¬((1 < seg0 v ∨ seg0 v = 1 ∧ 3 ≤ seg1 v) ∧ (seg0 v < 1 ∨ seg0 v = 1 ∧ seg1 v < 4)) from by omega),
        if_neg (show ¬((1 < seg0 v ∨ seg0 v = 1 ∧ 4 ≤ seg1 v) ∧ (seg0 v < 1 ∨ seg0 v = 1 ∧ seg1 v < 5)) from by omega),
        if_pos (show (1 < seg0 v ∨ seg0 v = 1 ∧ 5 ≤ seg1 v) ∧ (seg0 v < 1 ∨ seg0 v = 1 ∧ seg1 v < 6) from by omega),
        if_neg h0,
        if_neg h2,
        if_neg hs,
        if_neg hb3,
        if_neg hb4,
        if_neg hb5,
        if_pos hb6]
  by_cases hb7 : seg1 v < 7
  · rw [if_neg (show ¬(seg0 v < 1 ∨ seg0 v = 1 ∧ (seg1 v < 0 ∨ seg1 v = 0)) from by omega),
        if_neg (show ¬((1 < seg0 v ∨ seg0 v = 1 ∧ 1 ≤ seg1 v) ∧ (seg0 v < 1 ∨ seg0 v = 1 ∧ seg1 v < 3)) from by omega),
        if_neg (show ¬((1 < seg0 v ∨ seg0 v = 1 ∧ 3 ≤ seg1 v) ∧ (seg0 v < 1 ∨ seg0 v = 1 ∧ seg1 v < 4)) from by omega),
        if_neg (show ¬((1 < seg0 v ∨ seg0 v = 1 ∧ 4 ≤ seg1 v) ∧ (seg0 v < 1 ∨ seg0 v = 1 ∧ seg1 v < 5)) from by omega),
        if_neg (show ¬((1 < seg0 v ∨ seg0 v = 1 ∧ 5 ≤ seg1 v) ∧ (seg0 v < 1 ∨ seg0 v = 1 ∧ seg1 v < 6)) from by omega),
        if_pos (show (1 < seg0 v ∨ seg0 v = 1 ∧ 6 ≤ seg1 v) ∧ (seg0 v < 1 ∨ seg0 v = 1 ∧ seg1 v < 7) from by omega),
        if_neg h0,
        if_neg h2,
        if_neg hs,
        if_neg hb3,
        if_neg hb4,
        if_neg hb5,
        if_neg hb6,
        if_pos hb7]
  by_cases hb8 : seg1 v < 8
  · rw [if_neg (show ¬(seg0 v < 1 ∨ seg0 v = 1 ∧ (seg1 v < 0 ∨ seg1 v = 0)) from by omega),
        if_neg (show ¬((1 < seg0 v ∨ seg0 v = 1 ∧ 1 ≤ seg1 v) ∧ (seg0 v < 1 ∨ seg0 v = 1 ∧ seg1 v < 3)) from by omega),
        if_neg (show ¬((1 < seg0 v ∨ seg0 v = 1 ∧ 3 ≤ seg1 v) ∧ (seg0 v < 1 ∨ seg0 v = 1 ∧ seg1 v < 4)) from by omega),
        if_neg (show ¬((1 < seg0 v ∨ seg0 v = 1 ∧ 4 ≤ seg1 v) ∧ (seg0 v < 1 ∨ seg0 v = 1 ∧ seg1 v < 5)) from by omega),
        if_neg (show ¬((1 < seg0 v ∨ seg0 v = 1 ∧ 5 ≤ seg1 v) ∧ (seg0 v < 1 ∨ seg0 v = 1 ∧ seg1 v < 6)) from by omega),
        if_neg (show ¬((1 < seg0 v ∨ seg0 v = 1 ∧ 6 ≤ seg1 v) ∧ (seg0 v < 1 ∨ seg0 v = 1 ∧ seg1 v < 7)) from by omega),
        if_pos (show (1 < seg0 v ∨ seg0 v = 1 ∧ 7 ≤ seg1 v) ∧ (seg0 v < 1 ∨ seg0 v = 1 ∧ seg1 v < 8) from by omega),
        if_neg h0,
        if_neg h2,
        if_neg hs,
        if_neg hb3,
        if_neg hb4,
        if_neg hb5,
        if_neg hb6,
        if_neg hb7,
        if_pos hb8]
  by_cases hb9 : seg1 v < 9
  · rw [if_neg (show ¬(seg0 v < 1 ∨ seg0 v = 1 ∧ (seg1 v < 0 ∨ seg1 v = 0)) from by omega),
        if_neg (show ¬((1 < seg0 v ∨ seg0 v = 1 ∧ 1 ≤ seg1 v) ∧ (seg0 v < 1 ∨ seg0 v = 1 ∧ seg1 v < 3)) from by omega),
        if_neg (show ¬((1 < seg0 v ∨ seg0 v = 1 ∧ 3 ≤ seg1 v) ∧ (seg0 v < 1 ∨ seg0 v = 1 ∧ seg1 v < 4)) from by omega),
        if_neg (show ¬((1 < seg0 v ∨ seg0 v = 1 ∧ 4 ≤ seg1 v) ∧ (seg0 v < 1 ∨ seg0 v = 1 ∧ seg1 v < 5)) from by omega),
        if_neg (show ¬((1 < seg0 v ∨ seg0 v = 1 ∧ 5 ≤ seg1 v) ∧ (seg0 v < 1 ∨ seg0 v = 1 ∧ seg1 v < 6)) from by omega),
        if_neg (show ¬((1 < seg0 v ∨ seg0 v = 1 ∧ 6 ≤ seg1 v) ∧ (seg0 v < 1 ∨ seg0 v = 1 ∧ seg1 v < 7)) from by omega),
        if_neg (show ¬((1 < seg0 v ∨ seg0 v = 1 ∧ 7 ≤ seg1 v) ∧ (seg0 v < 1 ∨ seg0 v = 1 ∧ seg1 v < 8)) from by omega),
        if_pos (show (1 < seg0 v ∨ seg0 v = 1 ∧ 8 ≤ seg1 v) ∧ (seg0 v < 1 ∨ seg0 v = 1 ∧ seg1 v < 9) from by omega),
        if_neg h0,
        if_neg h2,
        if_neg hs,
        if_neg hb3,
        if_neg hb4,
        if_neg hb5,
        if_neg hb6,
        if_neg hb7,
        if_neg hb8,
        if_pos hb9]
  by_cases hb10 : seg1 v < 10
  · rw [if_neg (show ¬(seg0 v < 1 ∨ seg0 v = 1 ∧ (seg1 v < 0 ∨ seg1 v = 0)) from by omega),
        if_neg (show ¬((1 < seg0 v ∨ seg0 v = 1 ∧ 1 ≤ seg1 v) ∧ (seg0 v < 1 ∨ seg0 v = 1 ∧ seg1 v < 3)) from by omega),
        if_neg (show ¬((1 < seg0 v ∨ seg0 v = 1 ∧ 3 ≤ seg1 v) ∧ (seg0 v < 1 ∨ seg0 v = 1 ∧ seg1 v < 4)) from by omega),
        if_neg (show ¬((1 < seg0 v ∨ seg0 v = 1 ∧ 4 ≤ seg1 v) ∧ (seg0 v < 1 ∨ seg0 v = 1 ∧ seg1 v < 5)) from by omega),
        if_neg (show ¬((1 < seg0 v ∨ seg0 v = 1 ∧ 5 ≤ seg1 v) ∧ (seg0 v < 1 ∨ seg0 v = 1 ∧ seg1 v < 6)) from by omega),
        if_neg (show ¬((1 < seg0 v ∨ seg0 v = 1 ∧ 6 ≤ seg1 v) ∧ (seg0 v < 1 ∨ seg0 v = 1 ∧ seg1 v < 7)) from by omega),
        if_neg (show ¬((1 < seg0 v ∨ seg0 v = 1 ∧ 7 ≤ seg1 v) ∧ (seg0 v < 1 ∨ seg0 v = 1 ∧ seg1 v < 8)) from by omega),
        if_neg (show ¬((1 < seg0 v ∨ seg0 v = 1 ∧ 8 ≤ seg1 v) ∧ (seg0 v < 1 ∨ seg0 v = 1 ∧ seg1 v < 9)) from by omega),
        if_pos (show (1 < seg0 v ∨ seg0 v = 1 ∧ 9 ≤ seg1 v) ∧ (seg0 v < 1 ∨ seg0 v = 1 ∧ seg1 v < 10) from by omega),
        if_neg h0,
        if_neg h2,
        if_neg hs,
        if_neg hb3,
        if_neg hb4,
        if_neg hb5,
        if_neg hb6,
        if_neg hb7,
        if_neg hb8,
        if_neg hb9,
        if_pos hb10]
  by_cases hb11 : seg1 v < 11
  · rw [if_neg (show ¬(seg0 v < 1 ∨ seg0 v = 1 ∧ (seg1 v < 0 ∨ seg1 v = 0)) from by omega),
        if_neg (show ¬((1 < seg0 v ∨ seg0 v = 1 ∧ 1 ≤ seg1 v) ∧ (seg0 v < 1 ∨ seg0 v = 1 ∧ seg1 v < 3)) from by omega),
        if_neg (show ¬((1 < seg0 v ∨ seg0 v = 1 ∧ 3 ≤ seg1 v) ∧ (seg0 v < 1 ∨ seg0 v = 1 ∧ seg1 v < 4)) from by omega),
        if_neg (show ¬((1 < seg0 v ∨ seg0 v = 1 ∧ 4 ≤ seg1 v) ∧ (seg0 v < 1 ∨ seg0 v = 1 ∧ seg1 v < 5)) from by omega),
        if_neg (show ¬((1 < seg0 v ∨ seg0 v = 1 ∧ 5 ≤ seg1 v) ∧ (seg0 v < 1 ∨ seg0 v = 1 ∧ seg1 v < 6)) from by omega),
        if_neg (show ¬((1 < seg0 v ∨ seg0 v = 1 ∧ 6 ≤ seg1 v) ∧ (seg0 v < 1 ∨ seg0 v = 1 ∧ seg1 v < 7)) from by omega),
        if_neg (show ¬((1 < seg0 v ∨ seg0 v = 1 ∧ 7 ≤ seg1 v) ∧ (seg0 v < 1 ∨ seg0 v = 1 ∧ seg1 v < 8)) from by omega),
        if_neg (show ¬((1 < seg0 v ∨ seg0 v = 1 ∧ 8 ≤ seg1 v) ∧ (seg0 v < 1 ∨ seg0 v = 1 ∧ seg1 v < 9)) from by omega),
        if_neg (show ¬((1 < seg0 v ∨ seg0 v = 1 ∧ 9 ≤ seg1 v) ∧ (seg0 v < 1 ∨ seg0 v = 1 ∧ seg1 v < 10)) from by omega),
        if_pos (show (1 < seg0 v ∨ seg0 v = 1 ∧ 10 ≤ seg1 v) ∧ (seg0 v < 1 ∨ seg0 v = 1 ∧ seg1 v < 11) from by omega),
        if_neg h0,
        if_neg h2,
        if_neg hs,
        if_neg hb3,
        if_neg hb4,
        if_neg hb5,
        if_neg hb6,
        if_neg hb7,
        if_neg hb8,
        if_neg hb9,
        if_neg hb10,
        if_pos hb11]
  by_cases hb12 : seg1 v < 12
  · rw [if_neg (show ¬(seg0 v < 1 ∨ seg0 v = 1 ∧ (seg1 v < 0 ∨ seg1 v = 0)) from by omega),
        if_neg (show ¬((1 < seg0 v ∨ seg0 v = 1 ∧ 1 ≤ seg1 v) ∧ (seg0 v < 1 ∨ seg0 v = 1 ∧ seg1 v < 3)) from by omega),
        if_neg (show ¬((1 < seg0 v ∨ seg0 v = 1 ∧ 3 ≤ seg1 v) ∧ (seg0 v < 1 ∨ seg0 v = 1 ∧ seg1 v < 4)) from by omega),
        if_neg (show ¬((1 < seg0 v ∨ seg0 v = 1 ∧ 4 ≤ seg1 v) ∧ (seg0 v < 1 ∨ seg0 v = 1 ∧ seg1 v < 5)) from by omega),
        if_neg (show ¬((1 < seg0 v ∨ seg0 v = 1 ∧ 5 ≤ seg1 v) ∧ (seg0 v < 1 ∨ seg0 v = 1 ∧ seg1 v < 6)) from by omega),
        if_neg (show ¬((1 < seg0 v ∨ seg0 v = 1 ∧ 6 ≤ seg1 v) ∧ (seg0 v < 1 ∨ seg0 v = 1 ∧ seg1 v < 7)) from by omega),
        if_neg (show ¬((1 < seg0 v ∨ seg0 v = 1 ∧ 7 ≤ seg1 v) ∧ (seg0 v < 1 ∨ seg0 v = 1 ∧ seg1 v < 8)) from by omega),
        if_neg (show ¬((1 < seg0 v ∨ seg0 v = 1 ∧ 8 ≤ seg1 v) ∧ (seg0 v < 1 ∨ seg0 v = 1 ∧ seg1 v < 9)) from by omega),
        if_neg (show ¬((1 < seg0 v ∨ seg0 v = 1 ∧ 9 ≤ seg1 v) ∧ (seg0 v < 1 ∨ seg0 v = 1 ∧ seg1 v < 10)) from by omega),
        if_neg (show ¬((1 < seg0 v ∨ seg0 v = 1 ∧ 10 ≤ seg1 v) ∧ (seg0 v < 1 ∨ seg0 v = 1 ∧ seg1 v < 11)) from by omega),
        if_pos (show (1 < seg0 v ∨ seg0 v = 1 ∧ 11 ≤ seg1 v) ∧ (seg0 v < 1 ∨ seg0 v = 1 ∧ seg1 v < 12) from by omega),
        if_neg h0,
        if_neg h2,
        if_neg hs,
        if_neg hb3,
        if_neg hb4,
        if_neg hb5,
        if_neg hb6,
        if_neg hb7,
        if_neg hb8,
        if_neg hb9,
        if_neg hb10,
        if_neg hb11,
        if_pos hb12]
  by_cases hb13 : seg1 v < 13
  · rw [if_neg (show ¬(seg0 v < 1 ∨ seg0 v = 1 ∧ (seg1 v < 0 ∨ seg1 v = 0)) from by omega),
        if_neg (show ¬((1 < seg0 v ∨ seg0 v = 1 ∧ 1 ≤ seg1 v) ∧ (seg0 v < 1 ∨ seg0 v = 1 ∧ seg1 v < 3)) from by omega),
        if_neg (show ¬((1 < seg0 v ∨ seg0 v = 1 ∧ 3 ≤ seg1 v) ∧ (seg0 v < 1 ∨ seg0 v = 1 ∧ seg1 v < 4)) from by omega),
        if_neg (show ¬((1 < seg0 v ∨ seg0 v = 1 ∧ 4 ≤ seg1 v) ∧ (seg0 v < 1 ∨ seg0 v = 1 ∧ seg1 v < 5)) from by omega),
        if_neg (show ¬((1 < seg0 v ∨ seg0 v = 1 ∧ 5 ≤ seg1 v) ∧ (seg0 v < 1 ∨ seg0 v = 1 ∧ seg1 v < 6)) from by omega),
        if_neg (show ¬((1 < seg0 v ∨ seg0 v = 1 ∧ 6 ≤ seg1 v) ∧ (seg0 v < 1 ∨ seg0 v = 1 ∧ seg1 v < 7)) from by omega),
        if_neg (show ¬((1 < seg0 v ∨ seg0 v = 1 ∧ 7 ≤ seg1 v) ∧ (seg0 v < 1 ∨ seg0 v = 1 ∧ seg1 v < 8)) from by omega),
        if_neg (show ¬((1 < seg0 v ∨ seg0 v = 1 ∧ 8 ≤ seg1 v) ∧ (seg0 v < 1 ∨ seg0 v = 1 ∧ seg1 v < 9)) from by omega),
        if_neg (show ¬((1 < seg0 v ∨ seg0 v = 1 ∧ 9 ≤ seg1 v) ∧ (seg0 v < 1 ∨ seg0 v = 1 ∧ seg1 v < 10)) from by omega),
        if_neg (show ¬((1 < seg0 v ∨ seg0 v = 1 ∧ 10 ≤ seg1 v) ∧ (seg0 v < 1 ∨ seg0 v = 1 ∧ seg1 v < 11)) from by omega),
        if_neg (show ¬((1 < seg0 v ∨ seg0 v = 1 ∧ 11 ≤ seg1 v) ∧ (seg0 v < 1 ∨ seg0 v = 1 ∧ seg1 v < 12)) from by omega),
        if_pos (show (1 < seg0 v ∨ seg0 v = 1 ∧ 12 ≤ seg1 v) ∧ (seg0 v < 1 ∨ seg0 v = 1 ∧ seg1 v < 13) from by omega),
        if_neg h0,
        if_neg h2,
        if_neg hs,
        if_neg hb3,
        if_neg hb4,
        if_neg hb5,
        if_neg hb6,
        if_neg hb7,
        if_neg hb8,
        if_neg hb9,
        if_neg hb10,
        if_neg hb11,
        if_neg hb12,
        if_pos hb13]
  · rw [if_neg (show ¬(seg0 v < 1 ∨ seg0 v = 1 ∧ (seg1 v < 0 ∨ seg1 v = 0)) from by omega),
        if_neg (show ¬((1 < seg0 v ∨ seg0 v = 1 ∧ 1 ≤ seg1 v) ∧ (seg0 v < 1 ∨ seg0 v = 1 ∧ seg1 v < 3)) from by omega),
        if_neg (show ¬((1 < seg0 v ∨ seg0 v = 1 ∧ 3 ≤ seg1 v) ∧ (seg0 v < 1 ∨ seg0 v = 1 ∧ seg1 v < 4)) from by omega),
        if_neg (show ¬((1 < seg0 v ∨ seg0 v = 1 ∧ 4 ≤ seg1 v) ∧ (seg0 v < 1 ∨ seg0 v = 1 ∧ seg1 v < 5)) from by omega),
        if_neg (show ¬((1 < seg0 v ∨ seg0 v = 1 ∧ 5 ≤ seg1 v) ∧ (seg0 v < 1 ∨ seg0 v = 1 ∧ seg1 v < 6)) from by omega),
        if_neg (show ¬((1 < seg0 v ∨ seg0 v = 1 ∧ 6 ≤ seg1 v) ∧ (seg0 v < 1 ∨ seg0 v = 1 ∧ seg1 v < 7)) from by omega),
        if_neg (show ¬((1 < seg0 v ∨ seg0 v = 1 ∧ 7 ≤ seg1 v) ∧ (seg0 v < 1 ∨ seg0 v = 1 ∧ seg1 v < 8)) from by omega),
        if_neg (show ¬((1 < seg0 v ∨ seg0 v = 1 ∧ 8 ≤ seg1 v) ∧ (seg0 v < 1 ∨ seg0 v = 1 ∧ seg1 v < 9)) from by omega),
        if_neg (show ¬((1 < seg0 v ∨ seg0 v = 1 ∧ 9 ≤ seg1 v) ∧ (seg0 v < 1 ∨ seg0 v = 1 ∧ seg1 v < 10)) from by omega),
        if_neg (show ¬((1 < seg0 v ∨ seg0 v = 1 ∧ 10 ≤ seg1 v) ∧ (seg0 v < 1 ∨ seg0 v = 1 ∧ seg1 v < 11)) from by omega),
        if_neg (show ¬((1 < seg0 v ∨ seg0 v = 1 ∧ 11 ≤ seg1 v) ∧ (seg0 v < 1 ∨ seg0 v = 1 ∧ seg1 v < 12)) from by omega),
        if_neg (show ¬((1 < seg0 v ∨ seg0 v = 1 ∧ 12 ≤ seg1 v) ∧ (seg0 v < 1 ∨ seg0 v = 1 ∧ seg1 v < 13)) from by omega),
        if_neg h0,
        if_neg h2,
        if_neg hs,
        if_neg hb3,
        if_neg hb4,
        if_neg hb5,
        if_neg hb6,
        if_neg hb7,
        if_neg hb8,
        if_neg hb9,
        if_neg hb10,
        if_neg hb11,
        if_neg hb12,
        if_neg hb13]

/-- Closed form of the range match when some segment beyond the second is
nonzero (so a version such as `1.0.5` exceeds the bound `1.0`). -/
theorem matchRange_char_gt (v : List Nat)
    (ht : segCmpNil (segRest v) = Ordering.gt) :
    matchRange v =
     (if seg0 v = 0 then some Platforms_1_0
      else if 2 ≤ seg0 v then none
      else if seg1 v = 0 then none
      else if seg1 v < 3 then some Platforms_1_1
      else if seg1 v < 4 then some Platforms_1_3
      else if seg1 v < 5 then some Platforms_1_4
      else if seg1 v < 6 then some Platforms_1_5
      else if seg1 v < 7 then some Platforms_1_6
      else if seg1 v < 8 then some Platforms_1_7
      else if seg1 v < 9 then some Platforms_1_8
      else if seg1 v < 10 then some Platforms_1_9
      else if seg1 v < 11 then some Platforms_1_10
      else if seg1 v < 12 then some Platforms_1_11
      else if seg1 v < 13 then some Platforms_1_12
      else none) := by
  rw [matchRange_unfold, ht]
  simp only [reduceCtorEq, and_false, or_false]
  by_cases h0 : seg0 v = 0
  · rw [if_pos (show seg0 v < 1 ∨ seg0 v = 1 ∧ seg1 v < 0 from by omega), if_pos h0]
  by_cases h2 : 2 ≤ seg0 v
  · rw [if_neg (show ¬(seg0 v < 1 ∨ seg0 v = 1 ∧ seg1 v < 0) from by omega),
        if_neg (show ¬((1 < seg0 v ∨ seg0 v = 1 ∧ 1 ≤ seg1 v) ∧ (seg0 v < 1 ∨ seg0 v = 1 ∧ seg1 v < 3)) from by omega),
        if_neg (show ¬((1 < seg0 v ∨ seg0 v = 1 ∧ 3 ≤ seg1 v) ∧ (seg0 v < 1 ∨ seg0 v = 1 ∧ seg1 v < 4)) from by omega),
        if_neg (show ¬((1 < seg0 v ∨ seg0 v = 1 ∧ 4 ≤ seg1 v) ∧ (seg0 v < 1 ∨ seg0 v = 1 ∧ seg1 v < 5)) from by omega),
        if_neg (show ¬((1 < seg0 v ∨ seg0 v = 1 ∧ 5 ≤ seg1 v) ∧ (seg0 v < 1 ∨ seg0 v = 1 ∧ seg1 v < 6)) from by omega),
        if_neg (show ¬((1 < seg0 v ∨ seg0 v = 1 ∧ 6 ≤ seg1 v) ∧ (seg0 v < 1 ∨ seg0 v = 1 ∧ seg1 v < 7)) from by omega),
        if_neg (show ¬((1 < seg0 v ∨ seg0 v = 1 ∧ 7 ≤ seg1 v) ∧ (seg0 v < 1 ∨ seg0 v = 1 ∧ seg1 v < 8)) from by omega),
        if_neg (show ¬((1 < seg0 v ∨ seg0 v = 1 ∧ 8 ≤ seg1 v) ∧ (seg0 v < 1 ∨ seg0 v = 1 ∧ seg1 v < 9)) from by omega),
        if_neg (show ¬((1 < seg0 v ∨ seg0 v = 1 ∧ 9 ≤ seg1 v) ∧ (seg0 v < 1 ∨ seg0 v = 1 ∧ seg1 v < 10)) from by omega),
        if_neg (show ¬((1 < seg0 v ∨ seg0 v = 1 ∧ 10 ≤ seg1 v) ∧ (seg0 v < 1 ∨ seg0 v = 1 ∧ seg1 v < 11)) from by omega),
        if_neg (show ¬((1 < seg0 v ∨ seg0 v = 1 ∧ 11 ≤ seg1 v) ∧ (seg0 v < 1 ∨ seg0 v = 1 ∧ seg1 v < 12)) from by omega),
        if_neg (show ¬((1 < seg0 v ∨ seg0 v = 1 ∧ 12 ≤ seg1 v) ∧ (seg0 v < 1 ∨ seg0 v = 1 ∧ seg1 v < 13)) from by omega),
        if_neg h0,
        if_pos h2]
  by_cases hs : seg1 v = 0
  · rw [if_neg (show ¬(seg0 v < 1 ∨ seg0 v = 1 ∧ seg1 v < 0) from by omega),
        if_neg (show ¬((1 < seg0 v ∨ seg0 v = 1 ∧ 1 ≤ seg1 v) ∧ (seg0 v < 1 ∨ seg0 v = 1 ∧ seg1 v < 3)) from by omega),
        if_neg (show ¬((1 < seg0 v ∨ seg0 v = 1 ∧ 3 ≤ seg1 v) ∧ (seg0 v < 1 ∨ seg0 v = 1 ∧ seg1 v < 4)) from by omega),
        if_neg (show ¬((1 < seg0 v ∨ seg0 v = 1 ∧ 4 ≤ seg1 v) ∧ (seg0 v < 1 ∨ seg0 v = 1 ∧ seg1 v < 5)) from by omega),
        if_neg (show ¬((1 < seg0 v ∨ seg0 v = 1 ∧ 5 ≤ seg1 v) ∧ (seg0 v < 1 ∨ seg0 v = 1 ∧ seg1 v < 6)) from by omega),
        if_neg (show ¬((1 < seg0 v ∨ seg0 v = 1 ∧ 6 ≤ seg1 v) ∧ (seg0 v < 1 ∨ seg0 v = 1 ∧ seg1 v < 7)) from by omega),
        if_neg (show ¬((1 < seg0 v ∨ seg0 v = 1 ∧ 7 ≤ seg1 v) ∧ (seg0 v < 1 ∨ seg0 v = 1 ∧ seg1 v < 8)) from by omega),
        if_neg (show ¬((1 < seg0 v ∨ seg0 v = 1 ∧ 8 ≤ seg1 v) ∧ (seg0 v < 1 ∨ seg0 v = 1 ∧ seg1 v < 9)) from by omega),
        if_neg (show ¬((1 < seg0 v ∨ seg0 v = 1 ∧ 9 ≤ seg1 v) ∧ (seg0 v < 1 ∨ seg0 v = 1 ∧ seg1 v < 10)) from by omega),
        if_neg (show ¬((1 < seg0 v ∨ seg0 v = 1 ∧ 10 ≤ seg1 v) ∧ (seg0 v < 1 ∨ seg0 v = 1 ∧ seg1 v < 11)) from by omega),
        if_neg (show ¬((1 < seg0 v ∨ seg0 v = 1 ∧ 11 ≤ seg1 v) ∧ (seg0 v < 1 ∨ seg0 v = 1 ∧ seg1 v < 12)) from by omega),
        if_neg (show ¬((1 < seg0 v ∨ seg0 v = 1 ∧ 12 ≤ seg1 v) ∧ (seg0 v < 1 ∨ seg0 v = 1 ∧ seg1 v < 13)) from by omega),
        if_neg h0,
        if_neg h2,
        if_pos hs]
  by_cases hb3 : seg1 v < 3
  · rw [if_neg (show ¬(seg0 v < 1 ∨ seg0 v = 1 ∧ seg1 v < 0) from by omega),
        if_pos (show (1 < seg0 v ∨ seg0 v = 1 ∧ 1 ≤ seg1 v) ∧ (seg0 v < 1 ∨ seg0 v = 1 ∧ seg1 v < 3) from by omega),
        if_neg h0,
        if_neg h2,
        if_neg hs,
        if_pos hb3]
  by_cases hb4 : seg1 v < 4
  · rw [if_neg (show ¬(seg0 v < 1 ∨ seg0 v = 1 ∧ seg1 v < 0) from by omega),
        if_neg (show ¬((1 < seg0 v ∨ seg0 v = 1 ∧ 1 ≤ seg1 v) ∧ (seg0 v < 1 ∨ seg0 v = 1 ∧ seg1 v < 3)) from by omega),
        if_pos (show (1 < seg0 v ∨ seg0 v = 1 ∧ 3 ≤ seg1 v) ∧ (seg0 v < 1 ∨ seg0 v = 1 ∧ seg1 v < 4) from by omega),
        if_neg h0,
        if_neg h2,
        if_neg hs,
        if_neg hb3,
        if_pos hb4]
  by_cases hb5 : seg1 v < 5
  · rw [if_neg (show ¬(seg0 v < 1 ∨ seg0 v = 1 ∧ seg1 v < 0) from by omega),
        if_neg (show ¬((1 < seg0 v ∨ seg0 v = 1 ∧ 1 ≤ seg1 v) ∧ (seg0 v < 1 ∨ seg0 v = 1 ∧ seg1 v < 3)) from by omega),
        if_neg (show ¬((1 < seg0 v ∨ seg0 v = 1 ∧ 3 ≤ seg1 v) ∧ (seg0 v < 1 ∨ seg0 v = 1 ∧ seg1 v < 4)) from by omega),
        if_pos (show (1 < seg0 v ∨ seg0 v = 1 ∧ 4 ≤ seg1 v) ∧ (seg0 v < 1 ∨ seg0 v = 1 ∧ seg1 v < 5) from by omega),
        if_neg h0,
        if_neg h2,
        if_neg hs,
        if_neg hb3,
        if_neg hb4,
        if_pos hb5]
  by_cases hb6 : seg1 v < 6
  · rw [if_neg (show ¬(seg0 v < 1 ∨ seg0 v = 1 ∧ seg1 v < 0) from by omega),
        if_neg (show ¬((1 < seg0 v ∨ seg0 v = 1 ∧ 1 ≤ seg1 v) ∧ (seg0 v < 1 ∨ seg0 v = 1 ∧ seg1 v < 3)) from by omega),
        if_neg (show ¬((1 < seg0 v ∨ seg0 v = 1 ∧ 3 ≤ seg1 v) ∧ (seg0 v < 1 ∨ seg0 v = 1 ∧ seg1 v < 4)) from by omega),
        if_neg (show ¬((1 < seg0 v ∨ seg0 v = 1 ∧ 4 ≤ seg1 v) ∧ (seg0 v < 1 ∨ seg0 v = 1 ∧ seg1 v < 5)) from by omega),
        if_pos (show (1 < seg0 v ∨ seg0 v = 1 ∧ 5 ≤ seg1 v) ∧ (seg0 v < 1 ∨ seg0 v = 1 ∧ seg1 v < 6) from by omega),
        if_neg h0,
        if_neg h2,
        if_neg hs,
        if_neg hb3,
        if_neg hb4,
        if_neg hb5,
        if_pos hb6]
  by_cases hb7 : seg1 v < 7
  · rw [if_neg (show ¬(seg0 v < 1 ∨ seg0 v = 1 ∧ seg1 v < 0) from by omega),
        if_neg (show ¬((1 < seg0 v ∨ seg0 v = 1 ∧ 1 ≤ seg1 v) ∧ (seg0 v < 1 ∨ seg0 v = 1 ∧ seg1 v < 3)) from by omega),
        if_neg (show ¬((1 < seg0 v ∨ seg0 v = 1 ∧ 3 ≤ seg1 v) ∧ (seg0 v < 1 ∨ seg0 v = 1 ∧ seg1 v < 4)) from by omega),
        if_neg (show ¬((1 < seg0 v ∨ seg0 v = 1 ∧ 4 ≤ seg1 v) ∧ (seg0 v < 1 ∨ seg0 v = 1 ∧ seg1 v < 5)) from by omega),
        if_neg (show ¬((1 < seg0 v ∨ seg0 v = 1 ∧ 5 ≤ seg1 v) ∧ (seg0 v < 1 ∨ seg0 v = 1 ∧ seg1 v < 6)) from by omega),
        if_pos (show (1 < seg0 v ∨ seg0 v = 1 ∧ 6 ≤ seg1 v) ∧ (seg0 v < 1 ∨ seg0 v = 1 ∧ seg1 v < 7) from by omega),
        if_neg h0,
        if_neg h2,
        if_neg hs,
        if_neg hb3,
        if_neg hb4,
        if_neg hb5,
        if_neg hb6,
        if_pos hb7]
  by_cases hb8 : seg1 v < 8
  · rw [if_neg (show ¬(seg0 v < 1 ∨ seg0 v = 1 ∧ seg1 v < 0) from by omega),
        if_neg (show ¬((1 < seg0 v ∨ seg0 v = 1 ∧ 1 ≤ seg1 v) ∧ (seg0 v < 1 ∨ seg0 v = 1 ∧ seg1 v < 3)) from by omega),
        if_neg (show ¬((1 < seg0 v ∨ seg0 v = 1 ∧ 3 ≤ seg1 v) ∧ (seg0 v < 1 ∨ seg0 v = 1 ∧ seg1 v < 4)) from by omega),
        if_neg (show ¬((1 < seg0 v ∨ seg0 v = 1 ∧ 4 ≤ seg1 v) ∧ (seg0 v < 1 ∨ seg0 v = 1 ∧ seg1 v < 5)) from by omega),
        if_neg (show ¬((1 < seg0 v ∨ seg0 v = 1 ∧ 5 ≤ seg1 v) ∧ (seg0 v < 1 ∨ seg0 v = 1 ∧ seg1 v < 6)) from by omega),
        if_neg (show ¬((1 < seg0 v ∨ seg0 v = 1 ∧ 6 ≤ seg1 v) ∧ (seg0 v < 1 ∨ seg0 v = 1 ∧ seg1 v < 7)) from by omega),
        if_pos (show (1 < seg0 v ∨ seg0 v = 1 ∧ 7 ≤ seg1 v) ∧ (seg0 v < 1 ∨ seg0 v = 1 ∧ seg1 v < 8) from by omega),
        if_neg h0,
        if_neg h2,
        if_neg hs,
        if_neg hb3,
        if_neg hb4,
        if_neg hb5,
        if_neg hb6,
        if_neg hb7,
        if_pos hb8]
  by_cases hb9 : seg1 v < 9
  · rw [if_neg (show ¬(seg0 v < 1 ∨ seg0 v = 1 ∧ seg1 v < 0) from by omega),
        if_neg (show ¬((1 < seg0 v ∨ seg0 v = 1 ∧ 1 ≤ seg1 v) ∧ (seg0 v < 1 ∨ seg0 v = 1 ∧ seg1 v < 3)) from by omega),
        if_neg (show ¬((1 < seg0 v ∨ seg0 v = 1 ∧ 3 ≤ seg1 v) ∧ (seg0 v < 1 ∨ seg0 v = 1 ∧ seg1 v < 4)) from by omega),
        if_neg (show ¬((1 < seg0 v ∨ seg0 v = 1 ∧ 4 ≤ seg1 v) ∧ (seg0 v < 1 ∨ seg0 v = 1 ∧ seg1 v < 5)) from by omega),
        if_neg (show ¬((1 < seg0 v ∨ seg0 v = 1 ∧ 5 ≤ seg1 v) ∧ (seg0 v < 1 ∨ seg0 v = 1 ∧ seg1 v < 6)) from by omega),
        if_neg (show ¬((1 < seg0 v ∨ seg0 v = 1 ∧ 6 ≤ seg1 v) ∧ (seg0 v < 1 ∨ seg0 v = 1 ∧ seg1 v < 7)) from by omega),
        if_neg (show ¬((1 < seg0 v ∨ seg0 v = 1 ∧ 7 ≤ seg1 v) ∧ (seg0 v < 1 ∨ seg0 v = 1 ∧ seg1 v < 8)) from by omega),
        if_pos (show (1 < seg0 v ∨ seg0 v = 1 ∧ 8 ≤ seg1 v) ∧ (seg0 v < 1 ∨ seg0 v = 1 ∧ seg1 v < 9) from by omega),
        if_neg h0,
        if_neg h2,
        if_neg hs,
        if_neg hb3,
        if_neg hb4,
        if_neg hb5,
        if_neg hb6,
        if_neg hb7,
        if_neg hb8,
        if_pos hb9]
  by_cases hb10 : seg1 v < 10
  · rw [if_neg (show ¬(seg0 v < 1 ∨ seg0 v = 1 ∧ seg1 v < 0) from by omega),
        if_neg (show ¬((1 < seg0 v ∨ seg0 v = 1 ∧ 1 ≤ seg1 v) ∧ (seg0 v < 1 ∨ seg0 v = 1 ∧ seg1 v < 3)) from by omega),
        if_neg (show ¬((1 < seg0 v ∨ seg0 v = 1 ∧ 3 ≤ seg1 v) ∧ (seg0 v < 1 ∨ seg0 v = 1 ∧ seg1 v < 4)) from by omega),
        if_neg (show ¬((1 < seg0 v ∨ seg0 v = 1 ∧ 4 ≤ seg1 v) ∧ (seg0 v < 1 ∨ seg0 v = 1 ∧ seg1 v < 5)) from by omega),
        if_neg (show ¬((1 < seg0 v ∨ seg0 v = 1 ∧ 5 ≤ seg1 v) ∧ (seg0 v < 1 ∨ seg0 v = 1 ∧ seg1 v < 6)) from by omega),
        if_neg (show ¬((1 < seg0 v ∨ seg0 v = 1 ∧ 6 ≤ seg1 v) ∧ (seg0 v < 1 ∨ seg0 v = 1 ∧ seg1 v < 7)) from by omega),
        if_neg (show ¬((1 < seg0 v ∨ seg0 v = 1 ∧ 7 ≤ seg1 v) ∧ (seg0 v < 1 ∨ seg0 v = 1 ∧ seg1 v < 8)) from by omega),
        if_neg (show ¬((1 < seg0 v ∨ seg0 v = 1 ∧ 8 ≤ seg1 v) ∧ (seg0 v < 1 ∨ seg0 v = 1 ∧ seg1 v < 9)) from by omega),
        if_pos (show (1 < seg0 v ∨ seg0 v = 1 ∧ 9 ≤ seg1 v) ∧ (seg0 v < 1 ∨ seg0 v = 1 ∧ seg1 v < 10) from by omega),
        if_neg h0,
        if_neg h2,
        if_neg hs,
        if_neg hb3,
        if_neg hb4,
        if_neg hb5,
        if_neg hb6,
        if_neg hb7,
        if_neg hb8,
        if_neg hb9,
        if_pos hb10]
  by_cases hb11 : seg1 v < 11
  · rw [if_neg (show ¬(seg0 v < 1 ∨ seg0 v = 1 ∧ seg1 v < 0) from by omega),
        if_neg (show ¬((1 < seg0 v ∨ seg0 v = 1 ∧ 1 ≤ seg1 v) ∧ (seg0 v < 1 ∨ seg0 v = 1 ∧ seg1 v < 3)) from by omega),
        if_neg (show ¬((1 < seg0 v ∨ seg0 v = 1 ∧ 3 ≤ seg1 v) ∧ (seg0 v < 1 ∨ seg0 v = 1 ∧ seg1 v < 4)) from by omega),
        if_neg (show ¬((1 < seg0 v ∨ seg0 v = 1 ∧ 4 ≤ seg1 v) ∧ (seg0 v < 1 ∨ seg0 v = 1 ∧ seg1 v < 5)) from by omega),
        if_neg (show ¬((1 < seg0 v ∨ seg0 v = 1 ∧ 5 ≤ seg1 v) ∧ (seg0 v < 1 ∨ seg0 v = 1 ∧ seg1 v < 6)) from by omega),
        if_neg (show ¬((1 < seg0 v ∨ seg0 v = 1 ∧ 6 ≤ seg1 v) ∧ (seg0 v < 1 ∨ seg0 v = 1 ∧ seg1 v < 7)) from by omega),
        if_neg (show ¬((1 < seg0 v ∨ seg0 v = 1 ∧ 7 ≤ seg1 v) ∧ (seg0 v < 1 ∨ seg0 v = 1 ∧ seg1 v < 8)) from by omega),
        if_neg (show ¬((1 < seg0 v ∨ seg0 v = 1 ∧ 8 ≤ seg1 v) ∧ (seg0 v < 1 ∨ seg0 v = 1 ∧ seg1 v < 9)) from by omega),
        if_neg (show ¬((1 < seg0 v ∨ seg0 v = 1 ∧ 9 ≤ seg1 v) ∧ (seg0 v < 1 ∨ seg0 v = 1 ∧ seg1 v < 10)) from by omega),
        if_pos (show (1 < seg0 v ∨ seg0 v = 1 ∧ 10 ≤ seg1 v) ∧ (seg0 v < 1 ∨ seg0 v = 1 ∧ seg1 v < 11) from by omega),
        if_neg h0,
        if_neg h2,
        if_neg hs,
        if_neg hb3,
        if_neg hb4,
        if_neg hb5,
        if_neg hb6,
        if_neg hb7,
        if_neg hb8,
        if_neg hb9,
        if_neg hb10,
        if_pos hb11]
  by_cases hb12 : seg1 v < 12
  · rw [if_neg (show ¬(seg0 v < 1 ∨ seg0 v = 1 ∧ seg1 v < 0) from by omega),
        if_neg (show ¬((1 < seg0 v ∨ seg0 v = 1 ∧ 1 ≤ seg1 v) ∧ (seg0 v < 1 ∨ seg0 v = 1 ∧ seg1 v < 3)) from by omega),
        if_neg (show ¬((1 < seg0 v ∨ seg0 v = 1 ∧ 3 ≤ seg1 v) ∧ (seg0 v < 1 ∨ seg0 v = 1 ∧ seg1 v < 4)) from by omega),
        if_neg (show ¬((1 < seg0 v ∨ seg0 v = 1 ∧ 4 ≤ seg1 v) ∧ (seg0 v < 1 ∨ seg0 v = 1 ∧ seg1 v < 5)) from by omega),
        if_neg (show ¬((1 < seg0 v ∨ seg0 v = 1 ∧ 5 ≤ seg1 v) ∧ (seg0 v < 1 ∨ seg0 v = 1 ∧ seg1 v < 6)) from by omega),
        if_neg (show ¬((1 < seg0 v ∨ seg0 v = 1 ∧ 6 ≤ seg1 v) ∧ (seg0 v < 1 ∨ seg0 v = 1 ∧ seg1 v < 7)) from by omega),
        if_neg (show ¬((1 < seg0 v ∨ seg0 v = 1 ∧ 7 ≤ seg1 v) ∧ (seg0 v < 1 ∨ seg0 v = 1 ∧ seg1 v < 8)) from by omega),
        if_neg (show ¬((1 < seg0 v ∨ seg0 v = 1 ∧ 8 ≤ seg1 v) ∧ (seg0 v < 1 ∨ seg0 v = 1 ∧ seg1 v < 9)) from by omega),
        if_neg (show ¬((1 < seg0 v ∨ seg0 v = 1 ∧ 9 ≤ seg1 v) ∧ (seg0 v < 1 ∨ seg0 v = 1 ∧ seg1 v < 10)) from by omega),
        if_neg (show ¬((1 < seg0 v ∨ seg0 v = 1 ∧ 10 ≤ seg1 v) ∧ (seg0 v < 1 ∨ seg0 v = 1 ∧ seg1 v < 11)) from by omega),
        if_pos (show (1 < seg0 v ∨ seg0 v = 1 ∧ 11 ≤ seg1 v) ∧ (seg0 v < 1 ∨ seg0 v = 1 ∧ seg1 v < 12) from by omega),
        if_neg h0,
        if_neg h2,
        if_neg hs,
        if_neg hb3,
        if_neg hb4,
        if_neg hb5,
        if_neg hb6,
        if_neg hb7,
        if_neg hb8,
        if_neg hb9,
        if_neg hb10,
        if_neg hb11,
        if_pos hb12]
  by_cases hb13 : seg1 v < 13
  · rw [if_neg (show ¬(seg0 v < 1 ∨ seg0 v = 1 ∧ seg1 v < 0) from by omega),
        if_neg (show ¬((1 < seg0 v ∨ seg0 v = 1 ∧ 1 ≤ seg1 v) ∧ (seg0 v < 1 ∨ seg0 v = 1 ∧ seg1 v < 3)) from by omega),
        if_neg (show ¬((1 < seg0 v ∨ seg0 v = 1 ∧ 3 ≤ seg1 v) ∧ (seg0 v < 1 ∨ seg0 v = 1 ∧ seg1 v < 4)) from by omega),
        if_neg (show ¬((1 < seg0 v ∨ seg0 v = 1 ∧ 4 ≤ seg1 v) ∧ (seg0 v < 1 ∨ seg0 v = 1 ∧ seg1 v < 5)) from by omega),
        if_neg (show ¬((1 < seg0 v ∨ seg0 v = 1 ∧ 5 ≤ seg1 v) ∧ (seg0 v < 1 ∨ seg0 v = 1 ∧ seg1 v < 6)) from by omega),
        if_neg (show ¬((1 < seg0 v ∨ seg0 v = 1 ∧ 6 ≤ seg1 v) ∧ (seg0 v < 1 ∨ seg0 v = 1 ∧ seg1 v < 7)) from by omega),
        if_neg (show ¬((1 < seg0 v ∨ seg0 v = 1 ∧ 7 ≤ seg1 v) ∧ (seg0 v < 1 ∨ seg0 v = 1 ∧ seg1 v < 8)) from by omega),
        if_neg (show ¬((1 < seg0 v ∨ seg0 v = 1 ∧ 8 ≤ seg1 v) ∧ (seg0 v < 1 ∨ seg0 v = 1 ∧ seg1 v < 9)) from by omega),
        if_neg (show ¬((1 < seg0 v ∨ seg0 v = 1 ∧ 9 ≤ seg1 v) ∧ (seg0 v < 1 ∨ seg0 v = 1 ∧ seg1 v < 10)) from by omega),
        if_neg (show ¬((1 < seg0 v ∨ seg0 v = 1 ∧ 10 ≤ seg1 v) ∧ (seg0 v < 1 ∨ seg0 v = 1 ∧ seg1 v < 11)) from by omega),
        if_neg (show ¬((1 < seg0 v ∨ seg0 v = 1 ∧ 11 ≤ seg1 v) ∧ (seg0 v < 1 ∨ seg0 v = 1 ∧ seg1 v < 12)) from by omega),
        if_pos (show (1 < seg0 v ∨ seg0 v = 1 ∧ 12 ≤ seg1 v) ∧ (seg0 v < 1 ∨ seg0 v = 1 ∧ seg1 v < 13) from by omega),
        if_neg h0,
        if_neg h2,
        if_neg hs,
        if_neg hb3,
        if_neg hb4,
        if_neg hb5,
        if_neg hb6,
        if_neg hb7,
        if_neg hb8,
        if_neg hb9,
        if_neg hb10,
        if_neg hb11,
        if_neg hb12,
        if_pos hb13]
  · rw [if_neg (show ¬(seg0 v < 1 ∨ seg0 v = 1 ∧ seg1 v < 0) from by omega),
        if_neg (show ¬((1 < seg0 v ∨ seg0 v = 1 ∧ 1 ≤ seg1 v) ∧ (seg0 v < 1 ∨ seg0 v = 1 ∧ seg1 v < 3)) from by omega),
        if_neg (show ¬((1 < seg0 v ∨ seg0 v = 1 ∧ 3 ≤ seg1 v) ∧ (seg0 v < 1 ∨ seg0 v = 1 ∧ seg1 v < 4)) from by omega),
        if_neg (show ¬((1 < seg0 v ∨ seg0 v = 1 ∧ 4 ≤ seg1 v) ∧ (seg0 v < 1 ∨ seg0 v = 1 ∧ seg1 v < 5)) from by omega),
        if_neg (show ¬((1 < seg0 v ∨ seg0 v = 1 ∧ 5 ≤ seg1 v) ∧ (seg0 v < 1 ∨ seg0 v = 1 ∧ seg1 v < 6)) from by omega),
        if_neg (show ¬((1 < seg0 v ∨ seg0 v = 1 ∧ 6 ≤ seg1 v) ∧ (seg0 v < 1 ∨ seg0 v = 1 ∧ seg1 v < 7)) from by omega),
        if_neg (show ¬((1 < seg0 v ∨ seg0 v = 1 ∧ 7 ≤ seg1 v) ∧ (seg0 v < 1 ∨ seg0 v = 1 ∧ seg1 v < 8)) from by omega),
        if_neg (show ¬((1 < seg0 v ∨ seg0 v = 1 ∧ 8 ≤ seg1 v) ∧ (seg0 v < 1 ∨ seg0 v = 1 ∧ seg1 v < 9)) from by omega),
        if_neg (show ¬((1 < seg0 v ∨ seg0 v = 1 ∧ 9 ≤ seg1 v) ∧ (seg0 v < 1 ∨ seg0 v = 1 ∧ seg1 v < 10)) from by omega),
        if_neg (show ¬((1 < seg0 v ∨ seg0 v = 1 ∧ 10 ≤ seg1 v) ∧ (seg0 v < 1 ∨ seg0 v = 1 ∧ seg1 v < 11)) from by omega),
        if_neg (show ¬((1 < seg0 v ∨ seg0 v = 1 ∧ 11 ≤ seg1 v) ∧ (seg0 v < 1 ∨ seg0 v = 1 ∧ seg1 v < 12)) from by omega),
        if_neg (show ¬((1 < seg0 v ∨ seg0 v = 1 ∧ 12 ≤ seg1 v) ∧ (seg0 v < 1 ∨ seg0 v = 1 ∧ seg1 v < 13)) from by omega),
        if_neg h0,
        if_neg h2,
        if_neg hs,
        if_neg hb3,
        if_neg hb4,
        if_neg hb5,
        if_neg hb6,
        if_neg hb7,
        if_neg hb8,
        if_neg hb9,
        if_neg hb10,
        if_neg hb11,
        if_neg hb12,
        if_neg hb13]

/-- A version with first segment `0` matches the first row (`<= 1.0`). -/
theorem mr_seg0_zero (v : List Nat) (h0 : seg0 v = 0) :
    matchRange v = some Platforms_1_0 := by
  rcases segCmpNil_eq_or_gt (segRest v) with ht | ht
  · rw [matchRange_char_eq v ht, if_pos h0]
  · rw [matchRange_char_gt v ht, if_pos h0]

/-- A version with first segment `≥ 2` matches no row. -/
theorem mr_seg0_big (v : List Nat) (h2 : 2 ≤ seg0 v) :
    matchRange v = none := by
  rcases segCmpNil_eq_or_gt (segRest v) with ht | ht
  · rw [matchRange_char_eq v ht,
      if_neg (show ¬(seg0 v = 0) from by omega), if_pos h2]
  · rw [matchRange_char_gt v ht,
      if_neg (show ¬(seg0 v = 0) from by omega), if_pos h2]

/-- A version equal to `1.0` (up to zero padding) matches the first row. -/
theorem mr_exact10 (v : List Nat) (h1 : seg0 v = 1) (hs : seg1 v = 0)
    (ht : segCmpNil (segRest v) = Ordering.eq) :
    matchRange v = some Platforms_1_0 := by
  rw [matchRange_char_eq v ht,
    if_neg (show ¬(seg0 v = 0) from by omega),
    if_neg (show ¬(2 ≤ seg0 v) from by omega), if_pos hs]

/-- A version strictly between `1.0` and `1.1` (first two segments `1.0`,
some later segment nonzero) matches no row. -/
theorem mr_gap (v : List Nat) (h1 : seg0 v = 1) (hs : seg1 v = 0)
    (ht : segCmpNil (segRest v) = Ordering.gt) :
    matchRange v = none := by
  rw [matchRange_char_gt v ht,
    if_neg (show ¬(seg0 v = 0) from by omega),
    if_neg (show ¬(2 ≤ seg0 v) from by omega), if_pos hs]

/-- A version `≥ 1.13` in its first two segments matches no row. -/
theorem mr_high (v : List Nat) (h1 : seg0 v = 1) (hb : 13 ≤ seg1 v) :
    matchRange v = none := by
  rcases segCmpNil_eq_or_gt (segRest v) with ht | ht
  · rw [matchRange_char_eq v ht]
    rw [if_neg (show ¬(seg0 v = 0) from by omega),
      if_neg (show ¬(2 ≤ seg0 v) from by omega),
      if_neg (show ¬(seg1 v = 0) from by omega),
      if_neg (show ¬(seg1 v < 3) from by omega),
      if_neg (show ¬(seg1 v < 4) from by omega),
      if_neg (show ¬(seg1 v < 5) from by omega),
      if_neg (show ¬(seg1 v < 6) from by omega),
      if_neg (show ¬(seg1 v < 7) from by omega),
      if_neg (show ¬(seg1 v < 8) from by omega),
      if_neg (show ¬(seg1 v < 9) from by omega),
      if_neg (show ¬(seg1 v < 10) from by omega),
      if_neg (show ¬(seg1 v < 11) from by omega),
      if_neg (show ¬(seg1 v < 12) from by omega),
      if_neg (show ¬(seg1 v < 13) from by omega)]
  · rw [matchRange_char_gt v ht]
    rw [if_neg (show ¬(seg0 v = 0) from by omega),
      if_neg (show ¬(2 ≤ seg0 v) from by omega),
      if_neg (show ¬(seg1 v = 0) from by omega),
      if_neg (show ¬(seg1 v < 3) from by omega),
      if_neg (show ¬(seg1 v < 4) from by omega),
      if_neg (show ¬(seg1 v < 5) from by omega),
      if_neg (show ¬(seg1 v < 6) from by omega),
      if_neg (show ¬(seg1 v < 7) from by omega),
      if_neg (show ¬(seg1 v < 8) from by omega),
      if_neg (show ¬(seg1 v < 9) from by omega),
      if_neg (show ¬(seg1 v < 10) from by omega),
      if_neg (show ¬(seg1 v < 11) from by omega),
      if_neg (show ¬(seg1 v < 12) from by omega),
      if_neg (show ¬(seg1 v < 13) from by omega)]

/-- A version in `[1.1, 1.3)` matches the row returning `Platforms_1_1`. -/
theorem mr_row1 (v : List Nat) (h1 : seg0 v = 1) (hlo : 1 ≤ seg1 v)
    (hb : seg1 v < 3) :
    matchRange v = some Platforms_1_1 := by
  rcases segCmpNil_eq_or_gt (segRest v) with ht | ht
  · rw [matchRange_char_eq v ht]
    rw [if_neg (show ¬(seg0 v = 0) from by omega),
      if_neg (show ¬(2 ≤ seg0 v) from by omega),
      if_neg (show ¬(seg1 v = 0) from by omega),
      if_pos hb]
  · rw [matchRange_char_gt v ht]
    rw [if_neg (show ¬(seg0 v = 0) from by omega),
      if_neg (show ¬(2 ≤ seg0 v) from by omega),
      if_neg (show ¬(seg1 v = 0) from by omega),
      if_pos hb]

/-- A version in `[1.3, 1.4)` matches the row returning `Platforms_1_3`. -/
theorem mr_row2 (v : List Nat) (h1 : seg0 v = 1) (hlo : 3 ≤ seg1 v)
    (hb : seg1 v < 4) :
    matchRange v = some Platforms_1_3 := by
  rcases segCmpNil_eq_or_gt (segRest v) with ht | ht
  · rw [matchRange_char_eq v ht]
    rw [if_neg (show ¬(seg0 v = 0) from by omega),
      if_neg (show ¬(2 ≤ seg0 v) from by omega),
      if_neg (show ¬(seg1 v = 0) from by omega),
      if_neg (show ¬(seg1 v < 3) from by omega),
      if_pos hb]
  · rw [matchRange_char_gt v ht]
    rw [if_neg (show ¬(seg0 v = 0) from by omega),
      if_neg (show ¬(2 ≤ seg0 v) from by omega),
      if_neg (show ¬(seg1 v = 0) from by omega),
      if_neg (show ¬(seg1 v < 3) from by omega),
      if_pos hb]

/-- A version in `[1.4, 1.5)` matches the row returning `Platforms_1_4`. -/
theorem mr_row3 (v : List Nat) (h1 : seg0 v = 1) (hlo : 4 ≤ seg1 v)
    (hb : seg1 v < 5) :
    matchRange v = some Platforms_1_4 := by
  rcases segCmpNil_eq_or_gt (segRest v) with ht | ht
  · rw [matchRange_char_eq v ht]
    rw [if_neg (show ¬(seg0 v = 0) from by omega),
      if_neg (show ¬(2 ≤ seg0 v) from by omega),
      if_neg (show ¬(seg1 v = 0) from by omega),
      if_neg (show ¬(seg1 v < 3) from by omega),
      if_neg (show ¬(seg1 v < 4) from by omega),
      if_pos hb]
  · rw [matchRange_char_gt v ht]
    rw [if_neg (show ¬(seg0 v = 0) from by omega),
      if_neg (show ¬(2 ≤ seg0 v) from by omega),
      if_neg (show ¬(seg1 v = 0) from by omega),
      if_neg (show ¬(seg1 v < 3) from by omega),
      if_neg (show ¬(seg1 v < 4) from by omega),
      if_pos hb]

/-- A version in `[1.5, 1.6)` matches the row returning `Platforms_1_5`. -/
theorem mr_row4 (v : List Nat) (h1 : seg0 v = 1) (hlo : 5 ≤ seg1 v)
    (hb : seg1 v < 6) :
    matchRange v = some Platforms_1_5 := by
  rcases segCmpNil_eq_or_gt (segRest v) with ht | ht
  · rw [matchRange_char_eq v ht]
    rw [if_neg (show ¬(seg0 v = 0) from by omega),
      if_neg (show ¬(2 ≤ seg0 v) from by omega),
      if_neg (show ¬(seg1 v = 0) from by omega),
      if_neg (show ¬(seg1 v < 3) from by omega),
      if_neg (show ¬(seg1 v < 4) from by omega),
      if_neg (show ¬(seg1 v < 5) from by omega),
      if_pos hb]
  · rw [matchRange_char_gt v ht]
    rw [if_neg (show ¬(seg0 v = 0) from by omega),
      if_neg (show ¬(2 ≤ seg0 v) from by omega),
      if_neg (show ¬(seg1 v = 0) from by omega),
      if_neg (show ¬(seg1 v < 3) from by omega),
      if_neg (show ¬(seg1 v < 4) from by omega),
      if_neg (show ¬(seg1 v < 5) from by omega),
      if_pos hb]

/-- A version in `[1.6, 1.7)` matches the row returning `Platforms_1_6`. -/
theorem mr_row5 (v : List Nat) (h1 : seg0 v = 1) (hlo : 6 ≤ seg1 v)
    (hb : seg1 v < 7) :
    matchRange v = some Platforms_1_6 := by
  rcases segCmpNil_eq_or_gt (segRest v) with ht | ht
  · rw [matchRange_char_eq v ht]
    rw [if_neg (show ¬(seg0 v = 0) from by omega),
      if_neg (show ¬(2 ≤ seg0 v) from by omega),
      if_neg (show ¬(seg1 v = 0) from by omega),
      if_neg (show ¬(seg1 v < 3) from by omega),
      if_neg (show ¬(seg1 v < 4) from by omega),
      if_neg (show ¬(seg1 v < 5) from by omega),
      if_neg (show ¬(seg1 v < 6) from by omega),
      if_pos hb]
  · rw [matchRange_char_gt v ht]
    rw [if_neg (show ¬(seg0 v = 0) from by omega),
      if_neg (show ¬(2 ≤ seg0 v) from by omega),
      if_neg (show ¬(seg1 v = 0) from by omega),
      if_neg (show ¬(seg1 v < 3) from by omega),
      if_neg (show ¬(seg1 v < 4) from by omega),
      if_neg (show ¬(seg1 v < 5) from by omega),
      if_neg (show ¬(seg1 v < 6) from by omega),
      if_pos hb]

/-- A version in `[1.7, 1.8)` matches the row returning `Platforms_1_7`. -/
theorem mr_row6 (v : List Nat) (h1 : seg0 v = 1) (hlo : 7 ≤ seg1 v)
    (hb : seg1 v < 8) :
    matchRange v = some Platforms_1_7 := by
  rcases segCmpNil_eq_or_gt (segRest v) with ht | ht
  · rw [matchRange_char_eq v ht]
    rw [if_neg (show ¬(seg0 v = 0) from by omega),
      if_neg (show ¬(2 ≤ seg0 v) from by omega),
      if_neg (show ¬(seg1 v = 0) from by omega),
      if_neg (show ¬(seg1 v < 3) from by omega),
      if_neg (show ¬(seg1 v < 4) from by omega),
      if_neg (show ¬(seg1 v < 5) from by omega),
      if_neg (show ¬(seg1 v < 6) from by omega),
      if_neg (show ¬(seg1 v < 7) from by omega),
      if_pos hb]
  · rw [matchRange_char_gt v ht]
    rw [if_neg (show ¬(seg0 v = 0) from by omega),
      if_neg (show ¬(2 ≤ seg0 v) from by omega),
      if_neg (show ¬(seg1 v = 0) from by omega),
      if_neg (show ¬(seg1 v < 3) from by omega),
      if_neg (show ¬(seg1 v < 4) from by omega),
      if_neg (show ¬(seg1 v < 5) from by omega),
      if_neg (show ¬(seg1 v < 6) from by omega),
      if_neg (show ¬(seg1 v < 7) from by omega),
      if_pos hb]

/-- A version in `[1.8, 1.9)` matches the row returning `Platforms_1_8`. -/
theorem mr_row7 (v : List Nat) (h1 : seg0 v = 1) (hlo : 8 ≤ seg1 v)
    (hb : seg1 v < 9) :
    matchRange v = some Platforms_1_8 := by
  rcases segCmpNil_eq_or_gt (segRest v) with ht | ht
  · rw [matchRange_char_eq v ht]
    rw [if_neg (show ¬(seg0 v = 0) from by omega),
      if_neg (show ¬(2 ≤ seg0 v) from by omega),
      if_neg (show ¬(seg1 v = 0) from by omega),
      if_neg (show ¬(seg1 v < 3) from by omega),
      if_neg (show ¬(seg1 v < 4) from by omega),
      if_neg (show ¬(seg1 v < 5) from by omega),
      if_neg (show ¬(seg1 v < 6) from by omega),
      if_neg (show ¬(seg1 v < 7) from by omega),
      if_neg (show ¬(seg1 v < 8) from by omega),
      if_pos hb]
  · rw [matchRange_char_gt v ht]
    rw [if_neg (show ¬(seg0 v = 0) from by omega),
      if_neg (show ¬(2 ≤ seg0 v) from by omega),
      if_neg (show ¬(seg1 v = 0) from by omega),
      if_neg (show ¬(seg1 v < 3) from by omega),
      if_neg (show ¬(seg1 v < 4) from by omega),
      if_neg (show ¬(seg1 v < 5) from by omega),
      if_neg (show ¬(seg1 v < 6) from by omega),
      if_neg (show ¬(seg1 v < 7) from by omega),
      if_neg (show ¬(seg1 v < 8) from by omega),
      if_pos hb]

/-- A version in `[1.9, 1.10)` matches the row returning `Platforms_1_9`. -/
theorem mr_row8 (v : List Nat) (h1 : seg0 v = 1) (hlo : 9 ≤ seg1 v)
    (hb : seg1 v < 10) :
    matchRange v = some Platforms_1_9 := by
  rcases segCmpNil_eq_or_gt (segRest v) with ht | ht
  · rw [matchRange_char_eq v ht]
    rw [if_neg (show ¬(seg0 v = 0) from by omega),
      if_neg (show ¬(2 ≤ seg0 v) from by omega),
      if_neg (show ¬(seg1 v = 0) from by omega),
      if_neg (show ¬(seg1 v < 3) from by omega),
      if_neg (show ¬(seg1 v < 4) from by omega),
      if_neg (show ¬(seg1 v < 5) from by omega),
      if_neg (show ¬(seg1 v < 6) from by omega),
      if_neg (show ¬(seg1 v < 7) from by omega),
      if_neg (show ¬(seg1 v < 8) from by omega),
      if_neg (show ¬(seg1 v < 9) from by omega),
      if_pos hb]
  · rw [matchRange_char_gt v ht]
    rw [if_neg (show ¬(seg0 v = 0) from by omega),
      if_neg (show ¬(2 ≤ seg0 v) from by omega),
      if_neg (show ¬(seg1 v = 0) from by omega),
      if_neg (show ¬(seg1 v < 3) from by omega),
      if_neg (show ¬(seg1 v < 4) from by omega),
      if_neg (show ¬(seg1 v < 5) from by omega),
      if_neg (show ¬(seg1 v < 6) from by omega),
      if_neg (show ¬(seg1 v < 7) from by omega),
      if_neg (show ¬(seg1 v < 8) from by omega),
      if_neg (show ¬(seg1 v < 9) from by omega),
      if_pos hb]

/-- A version in `[1.10, 1.11)` matches the row returning `Platforms_1_10`. -/
theorem mr_row9 (v : List Nat) (h1 : seg0 v = 1) (hlo : 10 ≤ seg1 v)
    (hb : seg1 v < 11) :
    matchRange v = some Platforms_1_10 := by
  rcases segCmpNil_eq_or_gt (segRest v) with ht | ht
  · rw [matchRange_char_eq v ht]
    rw [if_neg (show ¬(seg0 v = 0) from by omega),
      if_neg (show ¬(2 ≤ seg0 v) from by omega),
      if_neg (show ¬(seg1 v = 0) from by omega),
      if_neg (show ¬(seg1 v < 3) from by omega),
      if_neg (show ¬(seg1 v < 4) from by omega),
      if_neg (show ¬(seg1 v < 5) from by omega),
      if_neg (show ¬(seg1 v < 6) from by omega),
      if_neg (show ¬(seg1 v < 7) from by omega),
      if_neg (show ¬(seg1 v < 8) from by omega),
      if_neg (show ¬(seg1 v < 9) from by omega),
      if_neg (show ¬(seg1 v < 10) from by omega),
      if_pos hb]
  · rw [matchRange_char_gt v ht]
    rw [if_neg (show ¬(seg0 v = 0) from by omega),
      if_neg (show ¬(2 ≤ seg0 v) from by omega),
      if_neg (show ¬(seg1 v = 0) from by omega),
      if_neg (show ¬(seg1 v < 3) from by omega),
      if_neg (show ¬(seg1 v < 4) from by omega),
      if_neg (show ¬(seg1 v < 5) from by omega),
      if_neg (show ¬(seg1 v < 6) from by omega),
      if_neg (show ¬(seg1 v < 7) from by omega),
      if_neg (show ¬(seg1 v < 8) from by omega),
      if_neg (show ¬(seg1 v < 9) from by omega),
      if_neg (show ¬(seg1 v < 10) from by omega),
      if_pos hb]

/-- A version in `[1.11, 1.12)` matches the row returning `Platforms_1_11`. -/
theorem mr_row10 (v : List Nat) (h1 : seg0 v = 1) (hlo : 11 ≤ seg1 v)
    (hb : seg1 v < 12) :
    matchRange v = some Platforms_1_11 := by
  rcases segCmpNil_eq_or_gt (segRest v) with ht | ht
  · rw [matchRange_char_eq v ht]
    rw [if_neg (show ¬(seg0 v = 0) from by omega),
      if_neg (show ¬(2 ≤ seg0 v) from by omega),
      if_neg (show ¬(seg1 v = 0) from by omega),
      if_neg (show ¬(seg1 v < 3) from by omega),
      if_neg (show ¬(seg1 v < 4) from by omega),
      if_neg (show ¬(seg1 v < 5) from by omega),
      if_neg (show ¬(seg1 v < 6) from by omega),
      if_neg (show ¬(seg1 v < 7) from by omega),
      if_neg (show ¬(seg1 v < 8) from by omega),
      if_neg (show ¬(seg1 v < 9) from by omega),
      if_neg (show ¬(seg1 v < 10) from by omega),
      if_neg (show ¬(seg1 v < 11) from by omega),
      if_pos hb]
  · rw [matchRange_char_gt v ht]
    rw [if_neg (show ¬(seg0 v = 0) from by omega),
      if_neg (show ¬(2 ≤ seg0 v) from by omega),
      if_neg (show ¬(seg1 v = 0) from by omega),
      if_neg (show ¬(seg1 v < 3) from by omega),
      if_neg (show ¬(seg1 v < 4) from by omega),
      if_neg (show ¬(seg1 v < 5) from by omega),
      if_neg (show ¬(seg1 v < 6) from by omega),
      if_neg (show ¬(seg1 v < 7) from by omega),
      if_neg (show ¬(seg1 v < 8) from by omega),
      if_neg (show ¬(seg1 v < 9) from by omega),
      if_neg (show ¬(seg1 v < 10) from by omega),
      if_neg (show ¬(seg1 v < 11) from by omega),
      if_pos hb]

/-- A version in `[1.12, 1.13)` matches the row returning `Platforms_1_12`. -/
theorem mr_row11 (v : List Nat) (h1 : seg0 v = 1) (hlo : 12 ≤ seg1 v)
    (hb : seg1 v < 13) :
    matchRange v = some Platforms_1_12 := by
  rcases segCmpNil_eq_or_gt (segRest v) with ht | ht
  · rw [matchRange_char_eq v ht]
    rw [if_neg (show ¬(seg0 v = 0) from by omega),
      if_neg (show ¬(2 ≤ seg0 v) from by omega),
      if_neg (show ¬(seg1 v = 0) from by omega),
      if_neg (show ¬(seg1 v < 3) from by omega),
      if_neg (show ¬(seg1 v < 4) from by omega),
      if_neg (show ¬(seg1 v < 5) from by omega),
      if_neg (show ¬(seg1 v < 6) from by omega),
      if_neg (show ¬(seg1 v < 7) from by omega),
      if_neg (show ¬(seg1 v < 8) from by omega),
      if_neg (show ¬(seg1 v < 9) from by omega),
      if_neg (show ¬(seg1 v < 10) from by omega),
      if_neg (show ¬(seg1 v < 11) from by omega),
      if_neg (show ¬(seg1 v < 12) from by omega),
      if_pos hb]
  · rw [matchRange_char_gt v ht]
    rw [if_neg (show ¬(seg0 v = 0) from by omega),
      if_neg (show ¬(2 ≤ seg0 v) from by omega),
      if_neg (show ¬(seg1 v = 0) from by omega),
      if_neg (show ¬(seg1 v < 3) from by omega),
      if_neg (show ¬(seg1 v < 4) from by omega),
      if_neg (show ¬(seg1 v < 5) from by omega),
      if_neg (show ¬(seg1 v < 6) from by omega),
      if_neg (show ¬(seg1 v < 7) from by omega),
      if_neg (show ¬(seg1 v < 8) from by omega),
      if_neg (show ¬(seg1 v < 9) from by omega),
      if_neg (show ¬(seg1 v < 10) from by omega),
      if_neg (show ¬(seg1 v < 11) from by omega),
      if_neg (show ¬(seg1 v < 12) from by omega),
      if_pos hb]

/-- A version matched by a later row compares `gt` against any version
matched by an earlier row. -/
theorem inRow_order (a b : List Nat) (k1 k2 : Nat) (hk1 : k1 ≤ 11)
    (hk2 : k2 ≤ 11) (h1 : inRow a k1) (h2 : inRow b k2) (hlt : k2 < k1) :
    segCmp a b = .gt := by
  interval_cases k1 <;> interval_cases k2 <;>
    simp only [inRow] at h1 h2 <;>
    exact segCmp_gt_of_heads a b (by omega)

/-- Each snapshot is contained in the next, except that the 1.6 snapshot's
mips64/mips64le entries reappear in 1.7 with a corrected default flag. -/
theorem snap_step : ∀ k, k ≤ 10 → ∀ p ∈ snapAt k,
    p ∈ snapAt (k + 1) ∨ mipsFix p := by decide

/-- Monotone membership along the snapshot order, up to the documented
mips64/mips64le correction. -/
theorem snap_chain : ∀ d k, k + d ≤ 11 → ∀ p ∈ snapAt k,
    p ∈ snapAt (k + d) ∨ mipsFix p := by
  intro d
  induction d with
  | zero => exact fun k _ p hp => Or.inl hp
  | succ n ih =>
      intro k h p hp
      rcases ih k (by omega) p hp with h2 | h2
      · exact snap_step (k + n) (by omega) p h2
      · exact Or.inr h2

/-- Every successful range match lands on a row index whose bounds the
version satisfies. -/
theorem matchRange_idx (v : List Nat) (l : List Platform)
    (h : matchRange v = some l) :
    ∃ k, k ≤ 11 ∧ l = snapAt k ∧ inRow v k := by
  by_cases h0 : seg0 v = 0
  · rw [mr_seg0_zero v h0] at h
    exact ⟨0, by omega, (Option.some.inj h).symm, Or.inl h0⟩
  by_cases h2 : 2 ≤ seg0 v
  · rw [mr_seg0_big v h2] at h
    cases h
  have h1 : seg0 v = 1 := by omega
  by_cases hs : seg1 v = 0
  · rcases segCmpNil_eq_or_gt (segRest v) with ht | ht
    · rw [mr_exact10 v h1 hs ht] at h
      exact ⟨0, by omega, (Option.some.inj h).symm, Or.inr ⟨h1, hs⟩⟩
    · rw [mr_gap v h1 hs ht] at h
      cases h
  by_cases hb3 : seg1 v < 3
  · rw [mr_row1 v h1 (by omega) hb3] at h
    exact ⟨1, by omega, (Option.some.inj h).symm, h1, by omega, hb3⟩
  by_cases hb4 : seg1 v < 4
  · rw [mr_row2 v h1 (by omega) hb4] at h
    exact ⟨2, by omega, (Option.some.inj h).symm, h1, by omega, hb4⟩
  by_cases hb5 : seg1 v < 5
  · rw [mr_row3 v h1 (by omega) hb5] at h
    exact ⟨3, by omega, (Option.some.inj h).symm, h1, by omega, hb5⟩
  by_cases hb6 : seg1 v < 6
  · rw [mr_row4 v h1 (by omega) hb6] at h
    exact ⟨4, by omega, (Option.some.inj h).symm, h1, by omega, hb6⟩
  by_cases hb7 : seg1 v < 7
  · rw [mr_row5 v h1 (by omega) hb7] at h
    exact ⟨5, by omega, (Option.some.inj h).symm, h1, by omega, hb7⟩
  by_cases hb8 : seg1 v < 8
  · rw [mr_row6 v h1 (by omega) hb8] at h
    exact ⟨6, by omega, (Option.some.inj h).symm, h1, by omega, hb8⟩
  by_cases hb9 : seg1 v < 9
  · rw [mr_row7 v h1 (by omega) hb9] at h
    exact ⟨7, by omega, (Option.some.inj h).symm, h1, by omega, hb9⟩
  by_cases hb10 : seg1 v < 10
  · rw [mr_row8 v h1 (by omega) hb10] at h
    exact ⟨8, by omega, (Option.some.inj h).symm, h1, by omega, hb10⟩
  by_cases hb11 : seg1 v < 11
  · rw [mr_row9 v h1 (by omega) hb11] at h
    exact ⟨9, by omega, (Option.some.inj h).symm, h1, by omega, hb11⟩
  by_cases hb12 : seg1 v < 12
  · rw [mr_row10 v h1 (by omega) hb12] at h
    exact ⟨10, by omega, (Option.some.inj h).symm, h1, by omega, hb12⟩
  by_cases hb13 : seg1 v < 13
  · rw [mr_row11 v h1 (by omega) hb13] at h
    exact ⟨11, by omega, (Option.some.inj h).symm, h1, by omega, hb13⟩
  · rw [mr_high v h1 (by omega)] at h
    cases h

theorem lookup_none_of_not_mem_keys {β : Type} (a : String)
    (l : List (String × β)) (h : a ∉ l.map Prod.fst) :
    l.lookup a = none := by
  induction l with
  | nil => rfl
  | cons e es ih =>
      obtain ⟨k, b⟩ := e
      simp only [List.map_cons, List.mem_cons] at h
      push_neg at h
      obtain ⟨h1, h2⟩ := h
      simp only [List.lookup]
      rw [show (a == k) = false from beq_eq_false_iff_ne.mpr h1]
      exact ih h2

/-- C1: the claim asserts every `go`-prefixed parsed version matches some
row of the table; `go1.13` is `go`-prefixed and parses, yet no row matches
it, so the step-4 fallback branch is reached (and returns the latest
snapshot). -/
theorem C1_counterexample :
    hasGoPre "go1.13" = true ∧
    parseVersion ("go1.13".drop 2) = some [1, 13, 0] ∧
    matchRange [1, 13, 0] = none ∧
    SupportedPlatforms "go1.13" = Platforms_1_12 := by
  refine ⟨by decide, by decide, by decide, by decide⟩

/-- C1 (amended): the final row's upper bound is `1.13` exclusive, not
open-ended.  A parsed version matches no row of the table exactly when it
lies strictly between `1.0` and `1.1` or is at least `1.13`; only then is
the step-4 fallback reached. -/
theorem C1_amended (v : List Nat) :
    matchRange v = none ↔
      ((segCmp v [1, 0] = .gt ∧ segCmp v [1, 1] = .lt) ∨
        segCmp v [1, 13] ≠ .lt) := by
  rw [segCmp_two_gt, segCmp_two_lt, segCmp_two_ne_lt]
  constructor
  · intro hn
    by_cases h0 : seg0 v = 0
    · rw [mr_seg0_zero v h0] at hn
      exact Option.noConfusion hn
    by_cases h2 : 2 ≤ seg0 v
    · exact Or.inr (Or.inl (by omega))
    have h1 : seg0 v = 1 := by omega
    by_cases hs : seg1 v = 0
    · rcases segCmpNil_eq_or_gt (segRest v) with ht | ht
      · rw [mr_exact10 v h1 hs ht] at hn
        exact Option.noConfusion hn
      · exact Or.inl ⟨Or.inr ⟨h1, Or.inr ⟨hs, ht⟩⟩, Or.inr ⟨h1, by omega⟩⟩
    by_cases h13 : 13 ≤ seg1 v
    · exact Or.inr (Or.inr ⟨h1, h13⟩)
    exfalso
    by_cases hb3 : seg1 v < 3
    · rw [mr_row1 v h1 (by omega) hb3] at hn
      exact Option.noConfusion hn
    by_cases hb4 : seg1 v < 4
    · rw [mr_row2 v h1 (by omega) hb4] at hn
      exact Option.noConfusion hn
    by_cases hb5 : seg1 v < 5
    · rw [mr_row3 v h1 (by omega) hb5] at hn
      exact Option.noConfusion hn
    by_cases hb6 : seg1 v < 6
    · rw [mr_row4 v h1 (by omega) hb6] at hn
      exact Option.noConfusion hn
    by_cases hb7 : seg1 v < 7
    · rw [mr_row5 v h1 (by omega) hb7] at hn
      exact Option.noConfusion hn
    by_cases hb8 : seg1 v < 8
    · rw [mr_row6 v h1 (by omega) hb8] at hn
      exact Option.noConfusion hn
    by_cases hb9 : seg1 v < 9
    · rw [mr_row7 v h1 (by omega) hb9] at hn
      exact Option.noConfusion hn
    by_cases hb10 : seg1 v < 10
    · rw [mr_row8 v h1 (by omega) hb10] at hn
      exact Option.noConfusion hn
    by_cases hb11 : seg1 v < 11
    · rw [mr_row9 v h1 (by omega) hb11] at hn
      exact Option.noConfusion hn
    by_cases hb12 : seg1 v < 12
    · rw [mr_row10 v h1 (by omega) hb12] at hn
      exact Option.noConfusion hn
    rw [mr_row11 v h1 (by omega) (by omega)] at hn
    exact Option.noConfusion hn
  · rintro (⟨hgt, hlt⟩ | hne)
    · have h1 : seg0 v = 1 := by
        rcases hgt with h | ⟨h, -⟩ <;> rcases hlt with h2 | ⟨h2, -⟩ <;> omega
      have hs : seg1 v = 0 := by
        rcases hlt with h2 | ⟨-, h2⟩ <;> omega
      rcases hgt with h | ⟨-, hrest⟩
      · exact absurd h (by omega)
      rcases hrest with h | ⟨-, hat⟩
      · exact absurd h (by omega)
      exact mr_gap v h1 hs hat
    · rcases hne with h | ⟨h1, h13⟩
      · exact mr_seg0_big v (by omega)
      · exact mr_high v h1 h13

/-- C2: the claim asserts (OS, Arch) pairs are unique within every
snapshot; `Platforms_1_8` contains (linux, arm64) twice — once inherited
from 1.5 with `Default: false` and once re-added in 1.8 with
`Default: true`. -/
theorem C2_counterexample :
    ¬ (Platforms_1_8.map (fun p => (p.OS, p.Arch))).Nodup ∧
    (Platforms_1_8.map (fun p => (p.OS, p.Arch))).count ("linux", "arm64") =
      2 := by
  refine ⟨by decide, by decide⟩

/-- C2 (amended): the (OS, Arch) pair uniquely identifies an entry within
each of the snapshots 1.0 through 1.7, but every snapshot from 1.8 on
contains duplicate pairs. -/
theorem C2_amended :
    (Platforms_1_0.map (fun p => (p.OS, p.Arch))).Nodup ∧
    (Platforms_1_1.map (fun p => (p.OS, p.Arch))).Nodup ∧
    (Platforms_1_3.map (fun p => (p.OS, p.Arch))).Nodup ∧
    (Platforms_1_4.map (fun p => (p.OS, p.Arch))).Nodup ∧
    (Platforms_1_5.map (fun p => (p.OS, p.Arch))).Nodup ∧
    (Platforms_1_6.map (fun p => (p.OS, p.Arch))).Nodup ∧
    (Platforms_1_7.map (fun p => (p.OS, p.Arch))).Nodup ∧
    ¬ (Platforms_1_8.map (fun p => (p.OS, p.Arch))).Nodup ∧
    ¬ (Platforms_1_9.map (fun p => (p.OS, p.Arch))).Nodup ∧
    ¬ (Platforms_1_10.map (fun p => (p.OS, p.Arch))).Nodup ∧
    ¬ (Platforms_1_11.map (fun p => (p.OS, p.Arch))).Nodup ∧
    ¬ (Platforms_1_12.map (fun p => (p.OS, p.Arch))).Nodup := by
  refine ⟨by decide, by decide, by decide, by decide, by decide, by decide,
    by decide, by decide, by decide, by decide, by decide, by decide⟩

/-- C3: replaying the initialization with Go's append semantics, the 1.6
slice does not end up equal to its literal definition: `Platforms_1_7`'s
append to the shared `Platforms_1_5` backing array overwrites the three
entries `Platforms_1_6` had appended, leaving the 1.6 slice equal to the
1.5 snapshot followed by 1.7's first three additions.  Every other slice
equals its literal list. -/
theorem C3_initialization_bug :
    readSlice 5 = Platforms_1_5 ++
      [⟨"linux", "s390x", true⟩, ⟨"plan9", "arm", false⟩,
       ⟨"android", "386", false⟩] ∧
    readSlice 5 ≠ Platforms_1_6 ∧
    readSlice 0 = Platforms_1_0 ∧ readSlice 1 = Platforms_1_1 ∧
    readSlice 2 = Platforms_1_3 ∧ readSlice 3 = Platforms_1_4 ∧
    readSlice 4 = Platforms_1_5 ∧ readSlice 6 = Platforms_1_7 ∧
    readSlice 7 = Platforms_1_8 ∧ readSlice 8 = Platforms_1_9 ∧
    readSlice 9 = Platforms_1_10 ∧ readSlice 10 = Platforms_1_11 ∧
    readSlice 11 = Platforms_1_12 := by
  refine ⟨by decide, by decide, by decide, by decide, by decide, by decide,
    by decide, by decide, by decide, by decide, by decide, by decide,
    by decide⟩

/-- C4: the claim allows an exception only for android/386, but the entry
{linux, mips64, false} of the 1.6 snapshot — not an android/386 entry — is
absent from the 1.7 snapshot (1.7 carries it with `Default: true`
instead). -/
theorem C4_counterexample :
    segCmp [1, 6, 0] [1, 7, 0] = .lt ∧
    matchRange [1, 6, 0] = some Platforms_1_6 ∧
    matchRange [1, 7, 0] = some Platforms_1_7 ∧
    (⟨"linux", "mips64", false⟩ : Platform) ∈ Platforms_1_6 ∧
    (⟨"linux", "mips64", false⟩ : Platform) ∉ Platforms_1_7 ∧
    ¬ ("linux" = "android" ∧ "mips64" = "386") := by
  refine ⟨by decide, by decide, by decide, by decide, by decide, by decide⟩

/-- C4 (amended): for versions v1 < v2 that both match rows of the table,
every entry of v1's list is in v2's list, except possibly the
linux/mips64 and linux/mips64le entries whose default flag the 1.7
snapshot corrected (android/386 is unchanged between 1.6 and 1.7). -/
theorem C4_amended (v1 v2 : List Nat) (l1 l2 : List Platform)
    (h1 : matchRange v1 = some l1) (h2 : matchRange v2 = some l2)
    (h12 : segCmp v1 v2 = .lt) :
    ∀ p ∈ l1, p ∈ l2 ∨ mipsFix p := by
  obtain ⟨k1, hk1, e1, r1⟩ := matchRange_idx v1 l1 h1
  obtain ⟨k2, hk2, e2, r2⟩ := matchRange_idx v2 l2 h2
  have hle : k1 ≤ k2 := by
    by_contra hgt
    have hcmp := inRow_order v1 v2 k1 k2 hk1 hk2 r1 r2 (by omega)
    rw [hcmp] at h12
    exact Ordering.noConfusion h12
  subst e1
  subst e2
  have hch := snap_chain (k2 - k1) k1 (by omega)
  rw [show k1 + (k2 - k1) = k2 from by omega] at hch
  exact hch

/-- C4 witness: versions 1.6 and 1.7 instantiate the amended claim. -/
theorem C4_witness :
    segCmp [1, 6, 0] [1, 7, 0] = .lt ∧
    ∀ p ∈ Platforms_1_6, p ∈ Platforms_1_7 ∨ mipsFix p := by
  refine ⟨by decide, ?_⟩
  exact C4_amended [1, 6, 0] [1, 7, 0] Platforms_1_6 Platforms_1_7
    (by decide) (by decide) (by decide)

/-- C5: the resolver is total — it returns a platform list for every
string, and both an input without the `go` prefix and a `go`-prefixed
input whose remainder fails to parse yield the latest snapshot; in
particular `"not-a-version"` and `"go99.99.99"` resolve to the same
list. -/
theorem C5_never_error (s : String)
    (h : hasGoPre s = false ∨ parseVersion (s.drop 2) = none) :
    SupportedPlatforms s = PlatformsLatest ∧
    SupportedPlatforms "not-a-version" = SupportedPlatforms "go99.99.99" := by
  refine ⟨?_, by decide⟩
  rcases h with h | h
  · simp [SupportedPlatforms, h]
  · by_cases hg : hasGoPre s
    · simp [SupportedPlatforms, hg, h]
    · simp [SupportedPlatforms, hg]

theorem C5_witness :
    parseVersion ("gox".drop 2) = none ∧
    (SupportedPlatforms "gox" = PlatformsLatest ∧
      SupportedPlatforms "not-a-version" =
        SupportedPlatforms "go99.99.99") := by
  refine ⟨by decide, ?_⟩
  exact C5_never_error "gox" (Or.inr (by decide))

/-- C6: `go1.9.2` resolves to the 1.9 snapshot, which contains js/wasm
and linux/riscv64 and lacks aix/ppc64. -/
theorem C6_go192 :
    SupportedPlatforms "go1.9.2" = Platforms_1_9 ∧
    (⟨"js", "wasm", true⟩ : Platform) ∈ SupportedPlatforms "go1.9.2" ∧
    (⟨"linux", "riscv64", true⟩ : Platform) ∈ SupportedPlatforms "go1.9.2" ∧
    (⟨"aix", "ppc64", true⟩ : Platform) ∉ SupportedPlatforms "go1.9.2" := by
  refine ⟨by decide, by decide, by decide, by decide⟩

/-- C7: `go0.9` resolves to the 1.0 snapshot: exactly 11 entries, all of
them default build targets. -/
theorem C7_go09 :
    SupportedPlatforms "go0.9" = Platforms_1_0 ∧
    (SupportedPlatforms "go0.9").length = 11 ∧
    ∀ p ∈ SupportedPlatforms "go0.9", p.Default = true := by
  refine ⟨by decide, by decide, by decide⟩

/-- C8: the uname tables map solaris to SunOS and arm64 to aarch64;
android and mips are absent, and every identifier outside the fixed
tables yields the empty string, with no failure. -/
theorem C8_uname (p q : Platform)
    (hp : p.OS ∉ osUnameTable.map Prod.fst)
    (hq : q.Arch ∉ archUnameTable.map Prod.fst) :
    Platform.OSUname ⟨"solaris", "amd64", false⟩ = "SunOS" ∧
    Platform.OSUname ⟨"android", "arm", false⟩ = "" ∧
    Platform.ArchUname ⟨"linux", "arm64", true⟩ = "aarch64" ∧
    Platform.ArchUname ⟨"linux", "mips", true⟩ = "" ∧
    Platform.OSUname p = "" ∧ Platform.ArchUname q = "" := by
  refine ⟨by decide, by decide, by decide, by decide, ?_, ?_⟩
  · show (osUnameTable.lookup p.OS).getD "" = ""
    rw [lookup_none_of_not_mem_keys p.OS osUnameTable hp]
    rfl
  · show (archUnameTable.lookup q.Arch).getD "" = ""
    rw [lookup_none_of_not_mem_keys q.Arch archUnameTable hq]
    rfl

theorem C8_witness :
    ("zos" ∉ osUnameTable.map Prod.fst) ∧
    ("sparc64" ∉ archUnameTable.map Prod.fst) ∧
    Platform.OSUname ⟨"zos", "s390x", false⟩ = "" ∧
    Platform.ArchUname ⟨"linux", "sparc64", false⟩ = "" := by
  refine ⟨by decide, by decide, ?_, ?_⟩
  · exact (C8_uname ⟨"zos", "s390x", false⟩ ⟨"linux", "sparc64", false⟩
      (by decide) (by decide)).2.2.2.2.1
  · exact (C8_uname ⟨"zos", "s390x", false⟩ ⟨"linux", "sparc64", false⟩
      (by decide) (by decide)).2.2.2.2.2

/-- C9: rendering a platform concatenates OS, a slash, and Arch. -/
theorem C9_render (p : Platform) :
    Platform.String p = p.OS ++ "/" ++ p.Arch ∧
    Platform.String ⟨"linux", "amd64", true⟩ = "linux/amd64" := by
  refine ⟨rfl, by decide⟩

/-- C10: every version in [1.10, 1.11) resolves to the same platform list
as every version in [1.9, 1.10): the 1.10 snapshot is the 1.9 snapshot
with no additions. -/
theorem C10_same_list (v w : List Nat)
    (hv1 : segCmp v [1, 10] ≠ .lt) (hv2 : segCmp v [1, 11] = .lt)
    (hw1 : segCmp w [1, 9] ≠ .lt) (hw2 : segCmp w [1, 10] = .lt) :
    resolveVersion v = resolveVersion w ∧
    resolveVersion v = Platforms_1_10 ∧ Platforms_1_10 = Platforms_1_9 := by
  rw [segCmp_two_ne_lt] at hv1 hw1
  rw [segCmp_two_lt] at hv2 hw2
  have hv : matchRange v = some Platforms_1_10 :=
    mr_row9 v (by omega) (by omega) (by omega)
  have hw : matchRange w = some Platforms_1_9 :=
    mr_row8 w (by omega) (by omega) (by omega)
  unfold resolveVersion
  rw [hv, hw]
  exact ⟨rfl, rfl, rfl⟩

theorem C10_witness :
    segCmp [1, 10, 0] [1, 10] ≠ .lt ∧ segCmp [1, 10, 0] [1, 11] = .lt ∧
    segCmp [1, 9, 5] [1, 9] ≠ .lt ∧ segCmp [1, 9, 5] [1, 10] = .lt ∧
    (resolveVersion [1, 10, 0] = resolveVersion [1, 9, 5] ∧
      resolveVersion [1, 10, 0] = Platforms_1_10 ∧
      Platforms_1_10 = Platforms_1_9) := by
  refine ⟨by decide, by decide, by decide, by decide, ?_⟩
  exact C10_same_list [1, 10, 0] [1, 9, 5] (by decide) (by decide)
    (by decide) (by decide)
